import Mathlib

/-!
# EPS battery monitor (`project1/eps.c`)

A shallow embedding of the three task bodies of `eps.c`:

* `Update_EPS`  (Sampler,   lines 111-123),
* `Compare_EPS` (Evaluator, lines 126-174),
* `Check_EPS`   (Watchdog,  lines 177-277).

The shared array `uint16_t EPS_BATT[EPS_SIZE]` is a function from the index
enumeration to `Nat`; a store is a function update.  Each task body maps the
array before the critical section to the array after it together with the log
of the effects (prints, sleeps, stores) it performed, in program order.
Arithmetic that C performs in `int` is done in `Int`; the one store whose value
can leave the `uint16_t` range (the increment of `EPS_ALERT`) is reduced
modulo `2^16`.
-/

namespace EPS

/-! ## Data model -/

/-- Modelled from the spec: the index enumeration of `eps.h` (not part of the
sources at hand).  `eps.c` uses exactly these seven enumerators to index
`EPS_BATT`; the data model of the spec has three raw readings, three health
states and one alert counter, seven distinct fields. -/
inductive EpsIndex
  | EPS_CURRENT_VAL
  | EPS_VOLTAGE_VAL
  | EPS_TEMPERATURE_VAL
  | EPS_CURRENT_STATE
  | EPS_VOLTAGE_STATE
  | EPS_TEMPERATURE_STATE
  | EPS_ALERT
  deriving DecidableEq, Repr

open EpsIndex

/-- The battery vector `EPS_BATT`: one `uint16_t` cell per enumerator. -/
abbrev Batt := EpsIndex → Nat

/-- The assignment `EPS_BATT[i] = v`. -/
def Batt.set (b : Batt) (i : EpsIndex) (v : Nat) : Batt :=
  fun j => if j = i then v else b j

/-- Every cell holds a value of type `uint16_t`. -/
def Batt.wf (b : Batt) : Prop := ∀ i, b i < 65536

/-- The globally declared, zero-initialised battery vector. -/
def EPS_BATT_init : Batt := fun _ => 0

/-- Builds a battery vector from its seven cells (raw current, voltage,
temperature, the three states in the same order, the alert counter). -/
def Batt.mk (cv vv tv cs vs ts al : Nat) : Batt
  | EPS_CURRENT_VAL => cv
  | EPS_VOLTAGE_VAL => vv
  | EPS_TEMPERATURE_VAL => tv
  | EPS_CURRENT_STATE => cs
  | EPS_VOLTAGE_STATE => vs
  | EPS_TEMPERATURE_STATE => ts
  | EPS_ALERT => al

/-! ### Values and tolerances, error codes (lines 91-101) -/

def VOLTAGE_SAFE : Int := 15
def CURRENT_SAFE : Int := 45
def TEMPERATURE_SAFE : Int := 355
def WARNING_THRESHOLD : Int := 2
def DANGER_THRESHOLD : Int := 4

def NOMINAL : Nat := 1
def WARNING : Nat := 2
def DANGER : Nat := 3

/-- What a task does besides computing: the log of a critical section lists
these in program order. -/
inductive Effect
  | print (s : String)
  | sleep (secs : Nat)
  | store (i : EpsIndex) (v : Nat)
  | lock
  | unlock
  deriving DecidableEq, Repr

/-! ## Sampler: `Update_EPS` (lines 111-123) -/

/-- Body of the critical section of `Update_EPS` (lines 117-119).  The three
arguments are the values returned by `sc_get_current()`, `sc_get_voltage()`
and `sc_get_temp()`, called in this order. -/
def Update_EPS (b : Batt) (current voltage temp : Nat) : Batt × List Effect :=
  let b1 := b.set EPS_CURRENT_VAL current
  let b2 := b1.set EPS_VOLTAGE_VAL voltage
  let b3 := b2.set EPS_TEMPERATURE_VAL temp
  (b3, [Effect.store EPS_CURRENT_VAL current,
        Effect.store EPS_VOLTAGE_VAL voltage,
        Effect.store EPS_TEMPERATURE_VAL temp])

/-! ## Evaluator: `Compare_EPS` (lines 126-174) -/

/-- Lines 138-146: update CURRENT state. -/
def update_current_state (b : Batt) : Batt × List Effect :=
  if CURRENT_SAFE - WARNING_THRESHOLD ≤ (b EPS_CURRENT_VAL : Int)
      ∧ (b EPS_CURRENT_VAL : Int) ≤ CURRENT_SAFE + WARNING_THRESHOLD then
    (b.set EPS_CURRENT_STATE NOMINAL, [Effect.store EPS_CURRENT_STATE NOMINAL])
  else if CURRENT_SAFE - DANGER_THRESHOLD ≤ (b EPS_CURRENT_VAL : Int)
      ∧ (b EPS_CURRENT_VAL : Int) ≤ CURRENT_SAFE + DANGER_THRESHOLD then
    (b.set EPS_CURRENT_STATE WARNING, [Effect.store EPS_CURRENT_STATE WARNING])
  else if CURRENT_SAFE - DANGER_THRESHOLD > (b EPS_CURRENT_VAL : Int)
      ∨ (b EPS_CURRENT_VAL : Int) > CURRENT_SAFE + DANGER_THRESHOLD then
    (b.set EPS_CURRENT_STATE DANGER, [Effect.store EPS_CURRENT_STATE DANGER])
  else
    (b, [])

/-- Lines 150-158: update VOLTAGE state. -/
def update_voltage_state (b : Batt) : Batt × List Effect :=
  if VOLTAGE_SAFE - WARNING_THRESHOLD ≤ (b EPS_VOLTAGE_VAL : Int)
      ∧ (b EPS_VOLTAGE_VAL : Int) ≤ VOLTAGE_SAFE + WARNING_THRESHOLD then
    (b.set EPS_VOLTAGE_STATE NOMINAL, [Effect.store EPS_VOLTAGE_STATE NOMINAL])
  else if VOLTAGE_SAFE - DANGER_THRESHOLD ≤ (b EPS_VOLTAGE_VAL : Int)
      ∧ (b EPS_VOLTAGE_VAL : Int) ≤ VOLTAGE_SAFE + DANGER_THRESHOLD then
    (b.set EPS_VOLTAGE_STATE WARNING, [Effect.store EPS_VOLTAGE_STATE WARNING])
  else if VOLTAGE_SAFE - DANGER_THRESHOLD > (b EPS_VOLTAGE_VAL : Int)
      ∨ (b EPS_VOLTAGE_VAL : Int) > VOLTAGE_SAFE + DANGER_THRESHOLD then
    (b.set EPS_VOLTAGE_STATE DANGER, [Effect.store EPS_VOLTAGE_STATE DANGER])
  else
    (b, [])

/-- Lines 162-170: update TEMPERATURE state. -/
def update_temperature_state (b : Batt) : Batt × List Effect :=
  if TEMPERATURE_SAFE - WARNING_THRESHOLD ≤ (b EPS_TEMPERATURE_VAL : Int)
      ∧ (b EPS_TEMPERATURE_VAL : Int) ≤ TEMPERATURE_SAFE + WARNING_THRESHOLD then
    (b.set EPS_TEMPERATURE_STATE NOMINAL, [Effect.store EPS_TEMPERATURE_STATE NOMINAL])
  else if TEMPERATURE_SAFE - DANGER_THRESHOLD ≤ (b EPS_TEMPERATURE_VAL : Int)
      ∧ (b EPS_TEMPERATURE_VAL : Int) ≤ TEMPERATURE_SAFE + DANGER_THRESHOLD then
    (b.set EPS_TEMPERATURE_STATE WARNING, [Effect.store EPS_TEMPERATURE_STATE WARNING])
  else if TEMPERATURE_SAFE - DANGER_THRESHOLD > (b EPS_TEMPERATURE_VAL : Int)
      ∨ (b EPS_TEMPERATURE_VAL : Int) > TEMPERATURE_SAFE + DANGER_THRESHOLD then
    (b.set EPS_TEMPERATURE_STATE DANGER, [Effect.store EPS_TEMPERATURE_STATE DANGER])
  else
    (b, [])

/-- Body of the critical section of `Compare_EPS` (lines 132-170): print the
three readings, then reclassify current, voltage and temperature. -/
def Compare_EPS (b : Batt) : Batt × List Effect :=
  let out := [Effect.print ("current : " ++ toString (b EPS_CURRENT_VAL) ++ " \n"),
              Effect.print ("voltage : " ++ toString (b EPS_VOLTAGE_VAL) ++ " \n"),
              Effect.print ("temp : " ++ toString (b EPS_TEMPERATURE_VAL) ++ " \n\n")]
  let r1 := update_current_state b
  let r2 := update_voltage_state r1.1
  let r3 := update_temperature_state r2.1
  (r3.1, out ++ r1.2 ++ r2.2 ++ r3.2)

/-- One whole iteration of the loop of `Update_EPS` (lines 114-121).
`sleep(0.00003)` passes a `double` to `unsigned int sleep(unsigned int)`: the
argument converts to 0. -/
def Update_EPS_cycle (b : Batt) (current voltage temp : Nat) : Batt × List Effect :=
  let r := Update_EPS b current voltage temp
  (r.1, [Effect.sleep 0, Effect.lock] ++ r.2 ++ [Effect.unlock])

/-- One whole iteration of the loop of `Compare_EPS` (lines 129-172). -/
def Compare_EPS_cycle (b : Batt) : Batt × List Effect :=
  let r := Compare_EPS b
  (r.1, [Effect.sleep 3, Effect.lock] ++ r.2 ++ [Effect.unlock])

/-! ## Watchdog: `Check_EPS` (lines 177-277) -/

/-- The local variables of `Check_EPS` declared at lines 183-189. -/
structure Tally where
  nominal_state_count : Int
  warning_state_count : Int
  danger_state_count : Int
  warning_state_flag : List Int
  danger_state_flag : List Int
  deriving DecidableEq, Repr

/-- Lines 183-189: the counters start at 0, the flag arrays at `{0,0,0}`. -/
def Tally.init : Tally :=
  { nominal_state_count := 0
    warning_state_count := 0
    danger_state_count := 0
    warning_state_flag := [0, 0, 0]
    danger_state_flag := [0, 0, 0] }

/-- Lines 193-195: the cell inspected at loop index `i`.  For `i` in `0..2`
exactly one of the three `if`s assigns `op_value_index`, so its value at line
197 is a function of `i`. -/
def op_value_index (i : Nat) : EpsIndex :=
  if i = 0 then EPS_CURRENT_STATE
  else if i = 1 then EPS_VOLTAGE_STATE
  else EPS_TEMPERATURE_STATE

/-- Lines 193-207: the body of the tally loop at index `i`. -/
def tally_step (b : Batt) (t : Tally) (i : Nat) : Tally :=
  if b (op_value_index i) = NOMINAL then
    { t with nominal_state_count := t.nominal_state_count + 1 }
  else if b (op_value_index i) = WARNING then
    { t with warning_state_count := t.warning_state_count + 1
             warning_state_flag := t.warning_state_flag.set i 1 }
  else if b (op_value_index i) = DANGER then
    { t with danger_state_count := t.danger_state_count + 1
             danger_state_flag := t.danger_state_flag.set i 1 }
  else
    t

/-- Lines 192-208: `for (int i=0; i<3; i++)` over the three state cells. -/
def tally (b : Batt) : Tally :=
  [0, 1, 2].foldl (tally_step b) Tally.init

/-- Lines 216-227: the `switch` of the warning report at loop index `i`. -/
def warning_report_step (t : Tally) (i : Nat) : List Effect :=
  match i with
  | 0 => if t.warning_state_flag.getD i 0 = 1
         then [Effect.print "current is in warning state\n"] else []
  | 1 => if t.warning_state_flag.getD i 0 = 1
         then [Effect.print "voltage is in warning state\n"] else []
  | 2 => if t.warning_state_flag.getD i 0 = 1
         then [Effect.print "temperature is in warning state\n"] else []
  | _ => []

/-- Lines 235-258: the `switch` of the alert report at loop index `i`. -/
def alert_report_step (t : Tally) (i : Nat) : List Effect :=
  match i with
  | 0 => if t.warning_state_flag.getD i 0 = 1 then
           [Effect.print "current is in warning state\n"]
         else if t.danger_state_flag.getD i 0 = 1 then
           [Effect.print "current is in danger state\n"]
         else []
  | 1 => if t.warning_state_flag.getD i 0 = 1 then
           [Effect.print "voltage is in warning state\n"]
         else if t.danger_state_flag.getD i 0 = 1 then
           [Effect.print "voltage is in danger state\n"]
         else []
  | 2 => if t.warning_state_flag.getD i 0 = 1 then
           [Effect.print "temperature is in warning state\n"]
         else if t.danger_state_flag.getD i 0 = 1 then
           [Effect.print "temperature is in danger state\n"]
         else []
  | _ => []

/-- Line 212: the condition of the first branch. -/
def warning_branch (t : Tally) : Bool :=
  decide (t.warning_state_count ≥ 2) && decide (t.danger_state_count = 0)

/-- Line 231: the condition of the second branch (tested only when the first
one failed). -/
def alert_branch (t : Tally) : Bool :=
  decide (3 - t.nominal_state_count ≥ 2) && decide (t.danger_state_count ≥ 1)

/-- Lines 211-264, "handle non-normal states": the rule step.  The first
branch reports the warning channels; the second reports the bad channels and
stores `EPS_BATT[EPS_ALERT] + 1` (computed in `int`, converted to `uint16_t`)
into the alert counter. -/
def handle_states (b : Batt) (t : Tally) : Batt × List Effect :=
  if warning_branch t then
    (b, [0, 1, 2].foldl (fun out i => out ++ warning_report_step t i) [])
  else if alert_branch t then
    (b.set EPS_ALERT ((b EPS_ALERT + 1) % 65536),
      [0, 1, 2].foldl (fun out i => out ++ alert_report_step t i) []
        ++ [Effect.store EPS_ALERT ((b EPS_ALERT + 1) % 65536)])
  else
    (b, [])

/-- Lines 268-273, "respond to EPS_ALERT reaching threshold": notice, sleep,
then the reset of the counter, in the order of the source. -/
def respond_alert (b : Batt) : Batt × List Effect :=
  if b EPS_ALERT = 5 then
    (b.set EPS_ALERT 0,
      [Effect.print "Sleeping for 10sec \n\n", Effect.sleep 10, Effect.store EPS_ALERT 0])
  else
    (b, [])

/-- Body of the critical section of `Check_EPS` (lines 183-273): tally, rule
step, the unconditional `printf("\n\n")` of line 266, cooldown check. -/
def Check_EPS (b : Batt) : Batt × List Effect :=
  let t := tally b
  let r1 := handle_states b t
  let r2 := respond_alert r1.1
  (r2.1, r1.2 ++ [Effect.print "\n\n"] ++ r2.2)

/-- One whole iteration of the loop of `Check_EPS` (lines 180-275). -/
def Check_EPS_cycle (b : Batt) : Batt × List Effect :=
  let r := Check_EPS b
  (r.1, [Effect.sleep 3, Effect.lock] ++ r.2 ++ [Effect.unlock])

/-! ## Readings (spec, section 3) -/

/-- The three monitored channels. -/
inductive Reading
  | Current
  | Voltage
  | Temperature
  deriving DecidableEq, Repr

/-- The cell holding the raw value of a channel. -/
def Reading.raw : Reading → EpsIndex
  | Current => EPS_CURRENT_VAL
  | Voltage => EPS_VOLTAGE_VAL
  | Temperature => EPS_TEMPERATURE_VAL

/-- The cell holding the health state of a channel. -/
def Reading.state : Reading → EpsIndex
  | Current => EPS_CURRENT_STATE
  | Voltage => EPS_VOLTAGE_STATE
  | Temperature => EPS_TEMPERATURE_STATE

/-- The safe value `S_r` of a channel. -/
def Reading.safe : Reading → Int
  | Current => CURRENT_SAFE
  | Voltage => VOLTAGE_SAFE
  | Temperature => TEMPERATURE_SAFE

/-- The name under which a channel is reported. -/
def Reading.name : Reading → String
  | Current => "current"
  | Voltage => "voltage"
  | Temperature => "temperature"

/-! ## Watchdog rules (spec, section 4.3) -/

/-- A state cell holds one of the three health states. -/
def valid_state (s : Nat) : Prop := s = NOMINAL ∨ s = WARNING ∨ s = DANGER

instance (s : Nat) : Decidable (valid_state s) := by
  unfold valid_state; infer_instance

/-- All three state cells hold a health state. -/
def valid_states (b : Batt) : Prop :=
  valid_state (b EPS_CURRENT_STATE) ∧ valid_state (b EPS_VOLTAGE_STATE)
    ∧ valid_state (b EPS_TEMPERATURE_STATE)

instance (b : Batt) : Decidable (valid_states b) := by
  unfold valid_states; infer_instance

/-- The number of state cells that hold the code `code`. -/
def state_count (code : Nat) (b : Batt) : Nat :=
  (if b EPS_CURRENT_STATE = code then 1 else 0)
    + (if b EPS_VOLTAGE_STATE = code then 1 else 0)
    + (if b EPS_TEMPERATURE_STATE = code then 1 else 0)

def nominal_count (b : Batt) : Nat := state_count NOMINAL b
def warning_count (b : Batt) : Nat := state_count WARNING b
def danger_count (b : Batt) : Nat := state_count DANGER b

/-- Rule (a), Quiet. -/
def rule_a (b : Batt) : Prop := warning_count b + danger_count b < 2

/-- Rule (b), Warning report. -/
def rule_b (b : Batt) : Prop := warning_count b ≥ 2 ∧ danger_count b = 0

/-- Rule (c), Alert. -/
def rule_c (b : Batt) : Prop := warning_count b + danger_count b ≥ 2 ∧ danger_count b ≥ 1

instance (b : Batt) : Decidable (rule_a b) := by unfold rule_a; infer_instance
instance (b : Batt) : Decidable (rule_b b) := by unfold rule_b; infer_instance
instance (b : Batt) : Decidable (rule_c b) := by unfold rule_c; infer_instance

/-- The report line of channel `r` when its state cell holds `s`:
"<channel> is in warning state" for Warning, "<channel> is in danger state"
for Danger, no line otherwise. -/
def report_line (r : Reading) (s : Nat) : List Effect :=
  if s = WARNING then [Effect.print (r.name ++ " is in warning state\n")]
  else if s = DANGER then [Effect.print (r.name ++ " is in danger state\n")]
  else []

/-- One report line per Warning or Danger channel, in the order current,
voltage, temperature. -/
def report_lines (b : Batt) : List Effect :=
  report_line Reading.Current (b EPS_CURRENT_STATE)
    ++ report_line Reading.Voltage (b EPS_VOLTAGE_STATE)
    ++ report_line Reading.Temperature (b EPS_TEMPERATURE_STATE)

/-- The warning line of channel `r` when its state cell holds `s`. -/
def warning_line (r : Reading) (s : Nat) : List Effect :=
  if s = WARNING then [Effect.print (r.name ++ " is in warning state\n")] else []

/-- One line per Warning channel, in the order current, voltage,
temperature. -/
def warning_lines (b : Batt) : List Effect :=
  warning_line Reading.Current (b EPS_CURRENT_STATE)
    ++ warning_line Reading.Voltage (b EPS_VOLTAGE_STATE)
    ++ warning_line Reading.Temperature (b EPS_TEMPERATURE_STATE)

/-- The text a log sends to the terminal. -/
def output : List Effect → List String
  | [] => []
  | Effect.print s :: l => s :: output l
  | _ :: l => output l

/-- The cooldown notice of line 270. -/
def cooldown_notice : Effect := Effect.print "Sleeping for 10sec \n\n"

/-- The flag the tally loop leaves for a cell holding `s` when it looks for
`code`. -/
def flag_of (code s : Nat) : Int := if s = code then 1 else 0

/-- The threshold function the three `if` chains compute, with the bands
written as in the source. -/
def band (safe : Int) (v : Nat) : Nat :=
  if safe - WARNING_THRESHOLD ≤ (v : Int) ∧ (v : Int) ≤ safe + WARNING_THRESHOLD then NOMINAL
  else if safe - DANGER_THRESHOLD ≤ (v : Int) ∧ (v : Int) ≤ safe + DANGER_THRESHOLD then WARNING
  else DANGER

/-! ## Interleavings of whole critical sections -/

/-- One whole lock-protected critical section of one of the three tasks; the
Sampler's carries the three values the telemetry source returns to it. -/
inductive EpsTask
  | sampler (current voltage temp : Nat)
  | evaluator
  | watchdog
  deriving DecidableEq, Repr

/-- The record after one critical section. -/
def step (b : Batt) : EpsTask → Batt
  | EpsTask.sampler current voltage temp => (Update_EPS b current voltage temp).1
  | EpsTask.evaluator => (Compare_EPS b).1
  | EpsTask.watchdog => (Check_EPS b).1

/-- The record after a finite interleaving of critical sections. -/
def run (b : Batt) (ts : List EpsTask) : Batt := ts.foldl step b

/-- The state cells still hold the value 0 of the zero-initialised array: the
Evaluator has not run yet. -/
def never_evaluated (b : Batt) : Prop :=
  b EPS_CURRENT_STATE = 0 ∧ b EPS_VOLTAGE_STATE = 0 ∧ b EPS_TEMPERATURE_STATE = 0

instance (b : Batt) : Decidable (never_evaluated b) := by
  unfold never_evaluated; infer_instance

/-- The effect of one log entry on the record: only a store changes it. -/
def apply_effect (b : Batt) : Effect → Batt
  | Effect.store i v => b.set i v
  | _ => b

/-- The record after a whole log has been performed. -/
def replay (b : Batt) (log : List Effect) : Batt := log.foldl apply_effect b

/-- The record at the moment the first `sleep secs` of a log begins, when the
log is performed from record `b`; `none` when the log has no such sleep. -/
def record_at_sleep (secs : Nat) : Batt → List Effect → Option Batt
  | _, [] => none
  | b, e :: l =>
    if e = Effect.sleep secs then some b else record_at_sleep secs (apply_effect b e) l

/-! ## Frame lemmas for the Evaluator -/

theorem Batt.set_same (b : Batt) (i : EpsIndex) (v : Nat) : b.set i v i = v := by
  simp [Batt.set]

theorem Batt.set_other (b : Batt) (i j : EpsIndex) (v : Nat) (h : j ≠ i) :
    b.set i v j = b j := by
  simp [Batt.set, h]

theorem update_current_state_other (b : Batt) (i : EpsIndex) (h : i ≠ EPS_CURRENT_STATE) :
    (update_current_state b).1 i = b i := by
  unfold update_current_state
  split_ifs <;> simp [Batt.set, h]

theorem update_voltage_state_other (b : Batt) (i : EpsIndex) (h : i ≠ EPS_VOLTAGE_STATE) :
    (update_voltage_state b).1 i = b i := by
  unfold update_voltage_state
  split_ifs <;> simp [Batt.set, h]

theorem update_temperature_state_other (b : Batt) (i : EpsIndex)
    (h : i ≠ EPS_TEMPERATURE_STATE) :
    (update_temperature_state b).1 i = b i := by
  unfold update_temperature_state
  split_ifs <;> simp [Batt.set, h]

theorem update_current_state_self (b : Batt) :
    (update_current_state b).1 EPS_CURRENT_STATE = band CURRENT_SAFE (b EPS_CURRENT_VAL) := by
  unfold update_current_state band
  split_ifs <;> first | (exfalso; omega) | simp [Batt.set]

theorem update_voltage_state_self (b : Batt) :
    (update_voltage_state b).1 EPS_VOLTAGE_STATE = band VOLTAGE_SAFE (b EPS_VOLTAGE_VAL) := by
  unfold update_voltage_state band
  split_ifs <;> first | (exfalso; omega) | simp [Batt.set]

theorem update_temperature_state_self (b : Batt) :
    (update_temperature_state b).1 EPS_TEMPERATURE_STATE
      = band TEMPERATURE_SAFE (b EPS_TEMPERATURE_VAL) := by
  unfold update_temperature_state band
  split_ifs <;> first | (exfalso; omega) | simp [Batt.set]

/-- After one Evaluator step the state cell of a channel holds the band of the
raw value the channel had before the step. -/
theorem Compare_EPS_state (b : Batt) (r : Reading) :
    (Compare_EPS b).1 r.state = band r.safe (b r.raw) := by
  cases r
  · simp only [Compare_EPS, Reading.state, Reading.raw, Reading.safe]
    rw [update_temperature_state_other _ _ (by decide),
      update_voltage_state_other _ _ (by decide), update_current_state_self]
  · simp only [Compare_EPS, Reading.state, Reading.raw, Reading.safe]
    rw [update_temperature_state_other _ _ (by decide), update_voltage_state_self,
      update_current_state_other _ _ (by decide)]
  · simp only [Compare_EPS, Reading.state, Reading.raw, Reading.safe]
    rw [update_temperature_state_self, update_voltage_state_other _ _ (by decide),
      update_current_state_other _ _ (by decide)]

theorem band_eq_abs (safe : Int) (v : Nat) :
    band safe v = if |(v : Int) - safe| ≤ 2 then NOMINAL
      else if |(v : Int) - safe| ≤ 4 then WARNING else DANGER := by
  unfold band WARNING_THRESHOLD DANGER_THRESHOLD
  have h1 : (|(v : Int) - safe| ≤ 2) ↔ (safe - 2 ≤ (v : Int) ∧ (v : Int) ≤ safe + 2) := by
    rw [abs_le]; constructor <;> intro h <;> constructor <;> omega
  have h2 : (|(v : Int) - safe| ≤ 4) ↔ (safe - 4 ≤ (v : Int) ∧ (v : Int) ≤ safe + 4) := by
    rw [abs_le]; constructor <;> intro h <;> constructor <;> omega
  simp only [h1, h2]

/-! ## The Watchdog tally and rule step -/

theorem report_line_strings :
    Reading.Current.name ++ " is in warning state\n" = "current is in warning state\n"
    ∧ Reading.Voltage.name ++ " is in warning state\n" = "voltage is in warning state\n"
    ∧ Reading.Temperature.name ++ " is in warning state\n"
        = "temperature is in warning state\n"
    ∧ Reading.Current.name ++ " is in danger state\n" = "current is in danger state\n"
    ∧ Reading.Voltage.name ++ " is in danger state\n" = "voltage is in danger state\n"
    ∧ Reading.Temperature.name ++ " is in danger state\n"
        = "temperature is in danger state\n" := by
  decide

/-- Every value is Nominal, Warning, Danger or none of them. -/
theorem state_cases (s : Nat) :
    s = NOMINAL ∨ s = WARNING ∨ s = DANGER ∨ (s ≠ NOMINAL ∧ s ≠ WARNING ∧ s ≠ DANGER) := by
  unfold NOMINAL WARNING DANGER; omega

/-- What the tally loop computes: the three counts and, per channel, the
warning and danger flags. -/
theorem tally_eq (b : Batt) :
    tally b =
      { nominal_state_count := (nominal_count b : Int)
        warning_state_count := (warning_count b : Int)
        danger_state_count := (danger_count b : Int)
        warning_state_flag :=
          [flag_of WARNING (b EPS_CURRENT_STATE), flag_of WARNING (b EPS_VOLTAGE_STATE),
           flag_of WARNING (b EPS_TEMPERATURE_STATE)]
        danger_state_flag :=
          [flag_of DANGER (b EPS_CURRENT_STATE), flag_of DANGER (b EPS_VOLTAGE_STATE),
           flag_of DANGER (b EPS_TEMPERATURE_STATE)] } := by
  rcases state_cases (b EPS_CURRENT_STATE) with h0 | h0 | h0 | ⟨h0, h0', h0''⟩ <;>
  rcases state_cases (b EPS_VOLTAGE_STATE) with h1 | h1 | h1 | ⟨h1, h1', h1''⟩ <;>
  rcases state_cases (b EPS_TEMPERATURE_STATE) with h2 | h2 | h2 | ⟨h2, h2', h2''⟩ <;>
  simp [tally, tally_step, op_value_index, Tally.init, nominal_count, warning_count,
    danger_count, state_count, flag_of, *] <;>
  simp [NOMINAL, WARNING, DANGER]

/-- The alert report loop prints one line per Warning or Danger channel. -/
theorem alert_report_eq (b : Batt) :
    [0, 1, 2].foldl (fun out i => out ++ alert_report_step (tally b) i) [] = report_lines b := by
  rw [tally_eq]
  rcases state_cases (b EPS_CURRENT_STATE) with h0 | h0 | h0 | ⟨h0, h0', h0''⟩ <;>
  rcases state_cases (b EPS_VOLTAGE_STATE) with h1 | h1 | h1 | ⟨h1, h1', h1''⟩ <;>
  rcases state_cases (b EPS_TEMPERATURE_STATE) with h2 | h2 | h2 | ⟨h2, h2', h2''⟩ <;>
  simp [alert_report_step, report_lines, report_line, flag_of, report_line_strings, *]

/-- The warning report loop prints one line per Warning channel. -/
theorem warning_report_eq (b : Batt) :
    [0, 1, 2].foldl (fun out i => out ++ warning_report_step (tally b) i) []
      = warning_lines b := by
  rw [tally_eq]
  rcases state_cases (b EPS_CURRENT_STATE) with h0 | h0 | h0 | ⟨h0, h0', h0''⟩ <;>
  rcases state_cases (b EPS_VOLTAGE_STATE) with h1 | h1 | h1 | ⟨h1, h1', h1''⟩ <;>
  rcases state_cases (b EPS_TEMPERATURE_STATE) with h2 | h2 | h2 | ⟨h2, h2', h2''⟩ <;>
  simp [warning_report_step, warning_lines, warning_line, flag_of, report_line_strings, *]

theorem warning_branch_iff (b : Batt) : warning_branch (tally b) = true ↔ rule_b b := by
  rw [tally_eq]
  simp [warning_branch, rule_b]

theorem alert_branch_iff (b : Batt) :
    alert_branch (tally b) = true ↔ (nominal_count b ≤ 1 ∧ danger_count b ≥ 1) := by
  rw [tally_eq]
  simp only [alert_branch, Bool.and_eq_true, decide_eq_true_eq]
  omega

/-- The three counts of a record with valid states add up to 3. -/
theorem counts_sum (b : Batt) (hv : valid_states b) :
    nominal_count b + warning_count b + danger_count b = 3 := by
  obtain ⟨h0, h1, h2⟩ := hv
  rcases h0 with h0 | h0 | h0 <;> rcases h1 with h1 | h1 | h1 <;>
  rcases h2 with h2 | h2 | h2 <;>
  simp [nominal_count, warning_count, danger_count, state_count, h0, h1, h2, NOMINAL,
    WARNING, DANGER]

/-- No count exceeds 3 and a cell is counted at most once. -/
theorem counts_le (b : Batt) :
    nominal_count b + warning_count b + danger_count b ≤ 3 := by
  unfold nominal_count warning_count danger_count state_count NOMINAL WARNING DANGER
  split_ifs <;> omega

/-- Rule (c) makes the Watchdog take its second branch, whatever else the
state cells hold. -/
theorem rule_c_branches (b : Batt) (hc : rule_c b) :
    warning_branch (tally b) = false ∧ alert_branch (tally b) = true := by
  have hle := counts_le b
  obtain ⟨h1, h2⟩ := hc
  constructor
  · rw [Bool.eq_false_iff]
    intro h
    rw [warning_branch_iff] at h
    obtain ⟨_, h3⟩ := h
    omega
  · rw [alert_branch_iff]
    omega

/-- The rule step under rule (c): report and increment. -/
theorem handle_states_rule_c (b : Batt) (hc : rule_c b) :
    handle_states b (tally b) =
      (b.set EPS_ALERT ((b EPS_ALERT + 1) % 65536),
        report_lines b ++ [Effect.store EPS_ALERT ((b EPS_ALERT + 1) % 65536)]) := by
  obtain ⟨h1, h2⟩ := rule_c_branches b hc
  unfold handle_states
  rw [h1, h2, alert_report_eq]
  simp

/-- The rule step under rule (b): report only. -/
theorem handle_states_rule_b (b : Batt) (hb : rule_b b) :
    handle_states b (tally b) = (b, warning_lines b) := by
  have h1 := (warning_branch_iff b).2 hb
  unfold handle_states
  rw [h1, warning_report_eq]
  simp

/-- The rule step of a record with valid states under rule (a): nothing. -/
theorem handle_states_rule_a (b : Batt) (hv : valid_states b) (ha : rule_a b) :
    handle_states b (tally b) = (b, []) := by
  have hs := counts_sum b hv
  unfold rule_a at ha
  have h1 : warning_branch (tally b) = false := by
    rw [Bool.eq_false_iff]
    intro h
    rw [warning_branch_iff] at h
    obtain ⟨h3, h4⟩ := h
    omega
  have h2 : alert_branch (tally b) = false := by
    rw [Bool.eq_false_iff]
    intro h
    rw [alert_branch_iff] at h
    omega
  simp [handle_states, h1, h2]

/-- The rule step of any record, in terms of the counts. -/
theorem handle_states_eq (b : Batt) :
    handle_states b (tally b) =
      if rule_b b then (b, warning_lines b)
      else if nominal_count b ≤ 1 ∧ danger_count b ≥ 1 then
        (b.set EPS_ALERT ((b EPS_ALERT + 1) % 65536),
          report_lines b ++ [Effect.store EPS_ALERT ((b EPS_ALERT + 1) % 65536)])
      else (b, []) := by
  unfold handle_states
  rw [alert_report_eq, warning_report_eq]
  by_cases h1 : rule_b b
  · rw [if_pos h1, if_pos ((warning_branch_iff b).2 h1)]
  · have h1' : warning_branch (tally b) = false := by
      rw [Bool.eq_false_iff]; exact fun h => h1 ((warning_branch_iff b).1 h)
    rw [if_neg h1, h1']
    by_cases h2 : nominal_count b ≤ 1 ∧ danger_count b ≥ 1
    · rw [if_pos h2, (alert_branch_iff b).2 h2]; simp
    · have h2' : alert_branch (tally b) = false := by
        rw [Bool.eq_false_iff]; exact fun h => h2 ((alert_branch_iff b).1 h)
      rw [if_neg h2, h2']; simp

/-- The report lines contain neither the cooldown notice nor a sleep. -/
theorem report_lines_plain (b : Batt) :
    cooldown_notice ∉ report_lines b ∧ Effect.sleep 10 ∉ report_lines b := by
  unfold report_lines report_line cooldown_notice
  split_ifs <;> simp <;> decide

theorem warning_lines_plain (b : Batt) :
    cooldown_notice ∉ warning_lines b ∧ Effect.sleep 10 ∉ warning_lines b := by
  unfold warning_lines warning_line cooldown_notice
  split_ifs <;> simp <;> decide

/-- The rule step never emits the cooldown notice and never sleeps. -/
theorem handle_states_plain (b : Batt) :
    cooldown_notice ∉ (handle_states b (tally b)).2
      ∧ Effect.sleep 10 ∉ (handle_states b (tally b)).2 := by
  rw [handle_states_eq]
  have h1 := report_lines_plain b
  have h2 := warning_lines_plain b
  split_ifs
  · exact h2
  · refine ⟨?_, ?_⟩
    · simp only [List.mem_append, List.mem_singleton, not_or]
      exact ⟨h1.1, by unfold cooldown_notice; simp⟩
    · simp only [List.mem_append, List.mem_singleton, not_or]
      exact ⟨h1.2, by simp⟩
  · simp

/-- The rule step writes no cell but the alert counter. -/
theorem handle_states_frame (b : Batt) (i : EpsIndex) (h : i ≠ EPS_ALERT) :
    (handle_states b (tally b)).1 i = b i := by
  rw [handle_states_eq]
  split_ifs <;> simp [Batt.set, h]

/-- The Watchdog step under rule (c), starting below the cooldown threshold:
report, increment, separator, and the cooldown exactly when the counter was 4. -/
theorem Check_EPS_rule_c (b : Batt) (hc : rule_c b) (ha : b EPS_ALERT ≤ 4) :
    Check_EPS b =
      if b EPS_ALERT = 4 then
        ((b.set EPS_ALERT 5).set EPS_ALERT 0,
          report_lines b ++ [Effect.store EPS_ALERT 5, Effect.print "\n\n", cooldown_notice,
            Effect.sleep 10, Effect.store EPS_ALERT 0])
      else
        (b.set EPS_ALERT (b EPS_ALERT + 1),
          report_lines b ++ [Effect.store EPS_ALERT (b EPS_ALERT + 1), Effect.print "\n\n"]) := by
  have hm : (b EPS_ALERT + 1) % 65536 = b EPS_ALERT + 1 := by omega
  unfold Check_EPS
  simp only [handle_states_rule_c b hc, hm, respond_alert, Batt.set_same]
  by_cases h4 : b EPS_ALERT = 4
  · simp [h4, cooldown_notice]
  · have h5 : ¬ (b EPS_ALERT + 1 = 5) := by omega
    simp [h4, h5]

/-- The Watchdog step when the rule step leaves the record alone and the
counter is not 5: only the separator is added to the log of the rule step. -/
theorem Check_EPS_no_change (b : Batt) (l : List Effect)
    (hr : handle_states b (tally b) = (b, l)) (ha : b EPS_ALERT ≠ 5) :
    Check_EPS b = (b, l ++ [Effect.print "\n\n"]) := by
  unfold Check_EPS
  simp [hr, respond_alert, ha]

/-! ## Frames of the three task bodies -/

/-- The Evaluator writes no cell but the three state cells. -/
theorem Compare_EPS_frame (b : Batt) (i : EpsIndex) (h1 : i ≠ EPS_CURRENT_STATE)
    (h2 : i ≠ EPS_VOLTAGE_STATE) (h3 : i ≠ EPS_TEMPERATURE_STATE) :
    (Compare_EPS b).1 i = b i := by
  simp only [Compare_EPS]
  rw [update_temperature_state_other _ _ h3, update_voltage_state_other _ _ h2,
    update_current_state_other _ _ h1]

/-- The cooldown check writes no cell but the alert counter. -/
theorem respond_alert_frame (b : Batt) (i : EpsIndex) (h : i ≠ EPS_ALERT) :
    (respond_alert b).1 i = b i := by
  unfold respond_alert
  split_ifs <;> simp [Batt.set, h]

/-- The Watchdog writes no cell but the alert counter. -/
theorem Check_EPS_frame (b : Batt) (i : EpsIndex) (h : i ≠ EPS_ALERT) :
    (Check_EPS b).1 i = b i := by
  simp only [Check_EPS]
  rw [respond_alert_frame _ _ h, handle_states_frame _ _ h]

/-- The Sampler writes no cell but the three raw cells. -/
theorem Update_EPS_frame (b : Batt) (current voltage temp : Nat) (i : EpsIndex)
    (h1 : i ≠ EPS_CURRENT_VAL) (h2 : i ≠ EPS_VOLTAGE_VAL) (h3 : i ≠ EPS_TEMPERATURE_VAL) :
    (Update_EPS b current voltage temp).1 i = b i := by
  simp [Update_EPS, Batt.set, h1, h2, h3]

/-- The counts of a record depend on its three state cells only. -/
theorem state_count_congr (code : Nat) (b1 b2 : Batt)
    (h0 : b1 EPS_CURRENT_STATE = b2 EPS_CURRENT_STATE)
    (h1 : b1 EPS_VOLTAGE_STATE = b2 EPS_VOLTAGE_STATE)
    (h2 : b1 EPS_TEMPERATURE_STATE = b2 EPS_TEMPERATURE_STATE) :
    state_count code b1 = state_count code b2 := by
  unfold state_count
  rw [h0, h1, h2]

/-- The band of a raw value within the warning threshold of the safe value. -/
theorem band_nominal (safe : Int) (v : Nat) (h : |(v : Int) - safe| ≤ 2) :
    band safe v = NOMINAL := by
  rw [band_eq_abs, if_pos h]

/-- The band of a raw value between the two thresholds. -/
theorem band_warning (safe : Int) (v : Nat) (h1 : 2 < |(v : Int) - safe|)
    (h2 : |(v : Int) - safe| ≤ 4) : band safe v = WARNING := by
  rw [band_eq_abs, if_neg (by omega), if_pos h2]

/-- The band of a raw value beyond the danger threshold. -/
theorem band_danger (safe : Int) (v : Nat) (h : 4 < |(v : Int) - safe|) :
    band safe v = DANGER := by
  rw [band_eq_abs, if_neg (by omega), if_neg (by omega)]

/-- The two branch conditions of the rule step in terms of the rules, for a
record with valid states. -/
theorem branches_of_rules (b : Batt) (hv : valid_states b) :
    (rule_c b → warning_branch (tally b) = false ∧ alert_branch (tally b) = true)
    ∧ (rule_a b → warning_branch (tally b) = false ∧ alert_branch (tally b) = false) := by
  have hs := counts_sum b hv
  have hw := warning_branch_iff b
  have hal := alert_branch_iff b
  have hwf : warning_branch (tally b) = false ↔ ¬ rule_b b := by
    rw [← hw]; simp
  have haf : alert_branch (tally b) = false
      ↔ ¬ (nominal_count b ≤ 1 ∧ danger_count b ≥ 1) := by
    rw [← hal]; simp
  constructor
  · intro hc
    exact rule_c_branches b hc
  · intro ha
    rw [hwf, haf]
    unfold rule_a at ha
    unfold rule_b
    omega

/-! ## Which cells the logs store into -/

theorem update_current_state_stores (b : Batt) (i : EpsIndex) (v : Nat)
    (h : Effect.store i v ∈ (update_current_state b).2) : i = EPS_CURRENT_STATE := by
  unfold update_current_state at h
  split_ifs at h <;> simp at h <;> exact h.1

theorem update_voltage_state_stores (b : Batt) (i : EpsIndex) (v : Nat)
    (h : Effect.store i v ∈ (update_voltage_state b).2) : i = EPS_VOLTAGE_STATE := by
  unfold update_voltage_state at h
  split_ifs at h <;> simp at h <;> exact h.1

theorem update_temperature_state_stores (b : Batt) (i : EpsIndex) (v : Nat)
    (h : Effect.store i v ∈ (update_temperature_state b).2) :
    i = EPS_TEMPERATURE_STATE := by
  unfold update_temperature_state at h
  split_ifs at h <;> simp at h <;> exact h.1

/-- The report lines are prints. -/
theorem report_lines_no_store (b : Batt) (i : EpsIndex) (v : Nat) :
    Effect.store i v ∉ report_lines b := by
  unfold report_lines report_line
  split_ifs <;> simp

theorem warning_lines_no_store (b : Batt) (i : EpsIndex) (v : Nat) :
    Effect.store i v ∉ warning_lines b := by
  unfold warning_lines warning_line
  split_ifs <;> simp

theorem handle_states_stores (b : Batt) (i : EpsIndex) (v : Nat)
    (h : Effect.store i v ∈ (handle_states b (tally b)).2) : i = EPS_ALERT := by
  rw [handle_states_eq] at h
  split_ifs at h
  · exact absurd h (warning_lines_no_store b i v)
  · simp only [List.mem_append, List.mem_singleton] at h
    rcases h with h | h
    · exact absurd h (report_lines_no_store b i v)
    · simp at h
      exact h.1
  · simp at h

theorem respond_alert_stores (b : Batt) (i : EpsIndex) (v : Nat)
    (h : Effect.store i v ∈ (respond_alert b).2) : i = EPS_ALERT := by
  unfold respond_alert at h
  split_ifs at h
  · simp at h
    exact h.1
  · simp at h

/-! ## The reachable records -/

/-- The tally of a record whose state cells were never evaluated. -/
theorem tally_never_evaluated (b : Batt) (hn : never_evaluated b) : tally b = Tally.init := by
  obtain ⟨h0, h1, h2⟩ := hn
  simp [tally, tally_step, op_value_index, h0, h1, h2, NOMINAL, WARNING, DANGER]

/-- A never-evaluated record has no Nominal, Warning or Danger channel. -/
theorem counts_never_evaluated (b : Batt) (hn : never_evaluated b) :
    nominal_count b = 0 ∧ warning_count b = 0 ∧ danger_count b = 0 := by
  obtain ⟨h0, h1, h2⟩ := hn
  simp [nominal_count, warning_count, danger_count, state_count, h0, h1, h2, NOMINAL,
    WARNING, DANGER]

/-- The Evaluator leaves three valid states. -/
theorem Compare_EPS_valid (b : Batt) : valid_states (Compare_EPS b).1 := by
  have h : ∀ safe v, valid_state (band safe v) := by
    intro safe v
    unfold band valid_state
    split_ifs <;> simp
  refine ⟨?_, ?_, ?_⟩
  · have e := Compare_EPS_state b Reading.Current
    simp only [Reading.state] at e
    rw [e]; exact h _ _
  · have e := Compare_EPS_state b Reading.Voltage
    simp only [Reading.state] at e
    rw [e]; exact h _ _
  · have e := Compare_EPS_state b Reading.Temperature
    simp only [Reading.state] at e
    rw [e]; exact h _ _

/-- A Watchdog step started with the alert counter in `0..4` ends with it in
`0..4`. -/
theorem Check_EPS_alert_le (b : Batt) (ha : b EPS_ALERT ≤ 4) :
    (Check_EPS b).1 EPS_ALERT ≤ 4 := by
  have hm : (b EPS_ALERT + 1) % 65536 = b EPS_ALERT + 1 := by omega
  simp only [Check_EPS, respond_alert, handle_states_eq]
  split_ifs <;> simp_all [Batt.set_same]
  all_goals omega

/-- The invariant of the reachable records: the alert counter is in `0..4` and
the state cells are either all untouched or all valid. -/
theorem run_invariant (ts : List EpsTask) :
    (run EPS_BATT_init ts) EPS_ALERT ≤ 4
      ∧ (never_evaluated (run EPS_BATT_init ts) ∨ valid_states (run EPS_BATT_init ts)) := by
  induction ts using List.reverseRecOn with
  | nil =>
    refine ⟨by simp [run, EPS_BATT_init], Or.inl ?_⟩
    simp [run, EPS_BATT_init, never_evaluated]
  | append_singleton ts t ih =>
    obtain ⟨ha, hs⟩ := ih
    have hr : run EPS_BATT_init (ts ++ [t]) = step (run EPS_BATT_init ts) t := by
      simp [run]
    rw [hr]
    cases t with
    | sampler current voltage temp =>
      simp only [step]
      have f : ∀ i, i ≠ EPS_CURRENT_VAL → i ≠ EPS_VOLTAGE_VAL → i ≠ EPS_TEMPERATURE_VAL →
          (Update_EPS (run EPS_BATT_init ts) current voltage temp).1 i
            = run EPS_BATT_init ts i :=
        fun i h1 h2 h3 => Update_EPS_frame _ _ _ _ i h1 h2 h3
      refine ⟨by rw [f _ (by decide) (by decide) (by decide)]; exact ha, ?_⟩
      unfold never_evaluated valid_states
      rw [f EPS_CURRENT_STATE (by decide) (by decide) (by decide),
        f EPS_VOLTAGE_STATE (by decide) (by decide) (by decide),
        f EPS_TEMPERATURE_STATE (by decide) (by decide) (by decide)]
      exact hs
    | evaluator =>
      simp only [step]
      refine ⟨?_, Or.inr (Compare_EPS_valid _)⟩
      rw [Compare_EPS_frame _ _ (by decide) (by decide) (by decide)]
      exact ha
    | watchdog =>
      simp only [step]
      refine ⟨Check_EPS_alert_le _ ha, ?_⟩
      unfold never_evaluated valid_states
      rw [Check_EPS_frame _ EPS_CURRENT_STATE (by decide),
        Check_EPS_frame _ EPS_VOLTAGE_STATE (by decide),
        Check_EPS_frame _ EPS_TEMPERATURE_STATE (by decide)]
      exact hs

/-- On a record whose states are all untouched or all valid the second branch
of the rule step is taken exactly under rule (c). -/
theorem alert_branch_iff_rule_c (b : Batt) (hs : never_evaluated b ∨ valid_states b) :
    (nominal_count b ≤ 1 ∧ danger_count b ≥ 1) ↔ rule_c b := by
  unfold rule_c
  rcases hs with hn | hv
  · obtain ⟨h0, h1, h2⟩ := counts_never_evaluated b hn
    omega
  · have := counts_sum b hv
    omega

/-- The cooldown notice is in the log of a Watchdog step exactly when the
counter after the rule step is 5. -/
theorem cooldown_notice_iff (b : Batt) :
    cooldown_notice ∈ (Check_EPS b).2 ↔ (handle_states b (tally b)).1 EPS_ALERT = 5 := by
  obtain ⟨hn, _⟩ := handle_states_plain b
  have hn' : Effect.print "Sleeping for 10sec \n\n" ∉ (handle_states b (tally b)).2 := hn
  by_cases h5 : (handle_states b (tally b)).1 EPS_ALERT = 5
  · simp [Check_EPS, respond_alert, h5, cooldown_notice]
  · simp [Check_EPS, respond_alert, h5, cooldown_notice, hn']

/-! ## Replaying a log -/

/-- Performing the report lines changes no cell. -/
theorem replay_report_lines (b : Batt) : replay b (report_lines b) = b := by
  unfold report_lines report_line
  split_ifs <;> simp [replay, apply_effect]

theorem replay_warning_lines (b : Batt) : replay b (warning_lines b) = b := by
  unfold warning_lines warning_line
  split_ifs <;> simp [replay, apply_effect]

theorem replay_append (b : Batt) (l1 l2 : List Effect) :
    replay b (l1 ++ l2) = replay (replay b l1) l2 := by
  simp [replay, List.foldl_append]

/-- The log of the rule step, performed on the record it started from, gives
the record it returns. -/
theorem replay_handle_states (b : Batt) :
    replay b (handle_states b (tally b)).2 = (handle_states b (tally b)).1 := by
  rw [handle_states_eq]
  split_ifs
  · exact replay_warning_lines b
  · simp only [replay_append, replay_report_lines]
    simp [replay, apply_effect]
  · simp [replay]

/-- Up to the first `sleep secs` a log acts on the record as its replay. -/
theorem record_at_sleep_append (secs : Nat) (l1 l2 : List Effect) :
    ∀ b : Batt, Effect.sleep secs ∉ l1 →
      record_at_sleep secs b (l1 ++ l2) = record_at_sleep secs (replay b l1) l2 := by
  induction l1 with
  | nil => intro b _; simp [replay]
  | cons e l ih =>
    intro b h
    have he : ¬ (e = Effect.sleep secs) := by
      intro h'
      exact h (by simp [h'])
    have hl : Effect.sleep secs ∉ l := by
      intro h'
      exact h (by simp [h'])
    have h1 : record_at_sleep secs b (e :: l ++ l2)
        = record_at_sleep secs (apply_effect b e) (l ++ l2) := by
      simp only [List.cons_append, record_at_sleep, if_neg he]
      rfl
    have h2 : replay b (e :: l) = replay (apply_effect b e) l := by
      simp [replay]
    rw [h1, h2]
    exact ih _ hl

/-! ## Theorems -/

/-- C1: for every raw value `v` (in particular every 16-bit one) held in
`raw[r]`, one Evaluator step leaves `state[r]` equal to Nominal when
`|v - S_r| ≤ 2`, to Warning when `2 < |v - S_r| ≤ 4` and to Danger when
`|v - S_r| > 4`; the boundary values `S_r - 2`, `S_r + 2` give Nominal,
`S_r - 4`, `S_r + 4` give Warning, and the resulting state is always exactly
one of the three (distinct) codes. -/
theorem C1_classification (b : Batt) (r : Reading) :
    ((Compare_EPS b).1 r.state =
        if |(b r.raw : Int) - r.safe| ≤ 2 then NOMINAL
        else if |(b r.raw : Int) - r.safe| ≤ 4 then WARNING
        else DANGER)
    ∧ (Compare_EPS (b.set r.raw (r.safe - 2).toNat)).1 r.state = NOMINAL
    ∧ (Compare_EPS (b.set r.raw (r.safe + 2).toNat)).1 r.state = NOMINAL
    ∧ (Compare_EPS (b.set r.raw (r.safe - 4).toNat)).1 r.state = WARNING
    ∧ (Compare_EPS (b.set r.raw (r.safe + 4).toNat)).1 r.state = WARNING
    ∧ ((Compare_EPS b).1 r.state = NOMINAL ∨ (Compare_EPS b).1 r.state = WARNING
        ∨ (Compare_EPS b).1 r.state = DANGER)
    ∧ NOMINAL ≠ WARNING ∧ NOMINAL ≠ DANGER ∧ WARNING ≠ DANGER := by
  simp only [Compare_EPS_state, Batt.set_same]
  refine ⟨band_eq_abs _ _, ?_, ?_, ?_, ?_, ?_, by decide, by decide, by decide⟩
  · cases r <;> decide
  · cases r <;> decide
  · cases r <;> decide
  · cases r <;> decide
  · unfold band
    split_ifs <;> simp

/-- C2: two battery records that agree on `raw[r]`, whatever their other
cells hold (previous `state[r]`, the other channels, the alert counter), have
the same `state[r]` after one Evaluator step. -/
theorem C2_state_depends_on_raw_only (r : Reading) (b1 b2 : Batt)
    (h : b1 r.raw = b2 r.raw) :
    (Compare_EPS b1).1 r.state = (Compare_EPS b2).1 r.state := by
  rw [Compare_EPS_state, Compare_EPS_state, h]

/-- Witness of C2: two records with the same raw voltage 18 and different
values in every other cell both end with the voltage state Warning. -/
theorem C2_state_depends_on_raw_only_witness :
    Batt.mk 45 18 355 1 1 1 0 Reading.Voltage.raw
        = Batt.mk 0 18 9999 3 3 0 4 Reading.Voltage.raw
    ∧ (Compare_EPS (Batt.mk 45 18 355 1 1 1 0)).1 Reading.Voltage.state
        = (Compare_EPS (Batt.mk 0 18 9999 3 3 0 4)).1 Reading.Voltage.state
    ∧ (Compare_EPS (Batt.mk 0 18 9999 3 3 0 4)).1 Reading.Voltage.state = WARNING :=
  ⟨by decide,
    C2_state_depends_on_raw_only Reading.Voltage (Batt.mk 45 18 355 1 1 1 0)
      (Batt.mk 0 18 9999 3 3 0 4) (by decide),
    by decide⟩

/-- C3: one Sampler step with telemetry values `current`, `voltage`, `temp`
stores them into the raw current, voltage and temperature cells (three stores,
in this order) and leaves the three state cells and the alert counter as they
were. -/
theorem C3_sampler_frame (b : Batt) (current voltage temp : Nat) :
    (Update_EPS b current voltage temp).1 EPS_CURRENT_VAL = current
    ∧ (Update_EPS b current voltage temp).1 EPS_VOLTAGE_VAL = voltage
    ∧ (Update_EPS b current voltage temp).1 EPS_TEMPERATURE_VAL = temp
    ∧ (Update_EPS b current voltage temp).1 EPS_CURRENT_STATE = b EPS_CURRENT_STATE
    ∧ (Update_EPS b current voltage temp).1 EPS_VOLTAGE_STATE = b EPS_VOLTAGE_STATE
    ∧ (Update_EPS b current voltage temp).1 EPS_TEMPERATURE_STATE = b EPS_TEMPERATURE_STATE
    ∧ (Update_EPS b current voltage temp).1 EPS_ALERT = b EPS_ALERT
    ∧ (Update_EPS b current voltage temp).2 =
        [Effect.store EPS_CURRENT_VAL current, Effect.store EPS_VOLTAGE_VAL voltage,
         Effect.store EPS_TEMPERATURE_VAL temp] := by
  simp [Update_EPS, Batt.set]

/-- Outside the records the program can hold: were the alert counter at
65535, the largest `uint16_t`, the store of line 262 would wrap to 0.  The
counter of a reachable record is at most 4 (`run_invariant`). -/
theorem alert_increment_wraps :
    valid_states (Batt.mk 50 18 355 3 2 1 65535)
    ∧ rule_c (Batt.mk 50 18 355 3 2 1 65535)
    ∧ (handle_states (Batt.mk 50 18 355 3 2 1 65535)
        (tally (Batt.mk 50 18 355 3 2 1 65535))).1 EPS_ALERT = 0
    ∧ ∀ ts : List EpsTask, run EPS_BATT_init ts ≠ Batt.mk 50 18 355 3 2 1 65535 := by
  refine ⟨by decide, by decide, by decide, ?_⟩
  intro ts h
  have h4 := (run_invariant ts).1
  rw [h] at h4
  exact absurd h4 (by decide)

/-- C4: rule (c), Alert.  In every record the program can hold, that is every
record reached from the zero-initialised battery vector by an interleaving of
whole critical sections, whose three states are each Nominal, Warning or
Danger and satisfy rule (c), the rule step of the Watchdog emits exactly one
report line per non-nominal channel, in the order current, voltage,
temperature, each naming the channel and its actual state, emits no line for a
Nominal channel, and then, before the cooldown check, increments the alert
counter by exactly 1. -/
theorem C4_alert_rule (ts : List EpsTask)
    (hv : valid_states (run EPS_BATT_init ts)) (hc : rule_c (run EPS_BATT_init ts)) :
    (handle_states (run EPS_BATT_init ts) (tally (run EPS_BATT_init ts))).2
        = report_lines (run EPS_BATT_init ts)
            ++ [Effect.store EPS_ALERT (run EPS_BATT_init ts EPS_ALERT + 1)]
    ∧ (report_lines (run EPS_BATT_init ts)).length = 3 - nominal_count (run EPS_BATT_init ts)
    ∧ (∀ r : Reading,
        (report_lines (run EPS_BATT_init ts)).count
            (Effect.print (r.name ++ " is in warning state\n"))
          = (if run EPS_BATT_init ts r.state = WARNING then 1 else 0)
        ∧ (report_lines (run EPS_BATT_init ts)).count
            (Effect.print (r.name ++ " is in danger state\n"))
          = (if run EPS_BATT_init ts r.state = DANGER then 1 else 0))
    ∧ (handle_states (run EPS_BATT_init ts) (tally (run EPS_BATT_init ts))).1
        = (run EPS_BATT_init ts).set EPS_ALERT (run EPS_BATT_init ts EPS_ALERT + 1)
    ∧ (handle_states (run EPS_BATT_init ts) (tally (run EPS_BATT_init ts))).1 EPS_ALERT
        = run EPS_BATT_init ts EPS_ALERT + 1
    ∧ (Check_EPS (run EPS_BATT_init ts)).2
        = (handle_states (run EPS_BATT_init ts) (tally (run EPS_BATT_init ts))).2
            ++ [Effect.print "\n\n"]
            ++ (respond_alert
                (handle_states (run EPS_BATT_init ts) (tally (run EPS_BATT_init ts))).1).2 := by
  have ha := (run_invariant ts).1
  generalize run EPS_BATT_init ts = b at hv hc ha ⊢
  have hm : (b EPS_ALERT + 1) % 65536 = b EPS_ALERT + 1 := by omega
  rw [handle_states_rule_c b hc, hm]
  refine ⟨rfl, ?_, ?_, rfl, ?_, ?_⟩
  · obtain ⟨h0, h1, h2⟩ := hv
    rcases h0 with h0 | h0 | h0 <;> rcases h1 with h1 | h1 | h1 <;>
    rcases h2 with h2 | h2 | h2 <;>
    simp [report_lines, report_line, nominal_count, state_count, h0, h1, h2, NOMINAL,
      WARNING, DANGER]
  · intro r
    obtain ⟨h0, h1, h2⟩ := hv
    rcases h0 with h0 | h0 | h0 <;> rcases h1 with h1 | h1 | h1 <;>
    rcases h2 with h2 | h2 | h2 <;> cases r <;>
    simp only [report_lines, report_line, Reading.state, h0, h1, h2] <;> decide
  · simp only [Batt.set_same]
  · simp [Check_EPS, handle_states_rule_c b hc, hm]

/-- Witness of C4: after a Sampler step with raw values 50, 18, 355, an
Evaluator step and two Watchdog steps the states are Danger, Warning, Nominal
and the alert counter is 2; the next rule step reports the two channels and
stores 3. -/
theorem C4_alert_rule_witness :
    (handle_states
        (run EPS_BATT_init [EpsTask.sampler 50 18 355, EpsTask.evaluator, EpsTask.watchdog,
          EpsTask.watchdog])
        (tally (run EPS_BATT_init [EpsTask.sampler 50 18 355, EpsTask.evaluator,
          EpsTask.watchdog, EpsTask.watchdog]))).2
      = [Effect.print "current is in danger state\n",
         Effect.print "voltage is in warning state\n", Effect.store EPS_ALERT 3] :=
  (C4_alert_rule [EpsTask.sampler 50 18 355, EpsTask.evaluator, EpsTask.watchdog,
      EpsTask.watchdog] (by decide) (by decide)).1.trans (by decide)

/-- C5: for every record that satisfies rule (b) and whose alert counter is in
`0..4`, one Watchdog step emits exactly one line "<channel> is in warning
state" for each Warning channel, in the order current, voltage, temperature,
then the separator of line 266; it emits no danger line and no line for a
channel that is not in Warning, and leaves the alert counter, and the whole
record, unchanged. -/
theorem C5_warning_report (b : Batt) (hv : valid_states b) (hb : rule_b b)
    (ha : b EPS_ALERT ≤ 4) :
    Check_EPS b = (b, warning_lines b ++ [Effect.print "\n\n"])
    ∧ (Check_EPS b).1 EPS_ALERT = b EPS_ALERT
    ∧ (∀ r : Reading,
        (Check_EPS b).2.count (Effect.print (r.name ++ " is in warning state\n"))
            = (if b r.state = WARNING then 1 else 0)
        ∧ (Check_EPS b).2.count (Effect.print (r.name ++ " is in danger state\n")) = 0)
    ∧ (Check_EPS b).2.length = warning_count b + 1 := by
  have h := Check_EPS_no_change b (warning_lines b) (handle_states_rule_b b hb) (by omega)
  rw [h]
  refine ⟨rfl, rfl, ?_, ?_⟩
  · intro r
    obtain ⟨h0, h1, h2⟩ := hv
    rcases h0 with h0 | h0 | h0 <;> rcases h1 with h1 | h1 | h1 <;>
    rcases h2 with h2 | h2 | h2 <;> cases r <;>
    simp only [warning_lines, warning_line, Reading.state, h0, h1, h2] <;> decide
  · obtain ⟨h0, h1, h2⟩ := hv
    rcases h0 with h0 | h0 | h0 <;> rcases h1 with h1 | h1 | h1 <;>
    rcases h2 with h2 | h2 | h2 <;>
    simp [warning_lines, warning_line, warning_count, state_count, h0, h1, h2, NOMINAL,
      WARNING, DANGER]

/-- Witness of C5: current and temperature Warning, voltage Nominal, alert
counter 4. -/
theorem C5_warning_report_witness :
    Check_EPS (Batt.mk 42 15 358 2 1 2 4)
      = (Batt.mk 42 15 358 2 1 2 4,
          [Effect.print "current is in warning state\n",
           Effect.print "temperature is in warning state\n", Effect.print "\n\n"]) :=
  (C5_warning_report (Batt.mk 42 15 358 2 1 2 4) (by decide) (by decide) (by decide)).1.trans
    (by rw [Prod.mk.injEq]; exact ⟨rfl, by decide⟩)

/-- C6 (as stated, refuted): on the all-Nominal record with alert counter 0,
which satisfies rule (a), the Watchdog step does produce output: the
unconditional `printf("\n\n")` of line 266. -/
theorem C6_counterexample :
    valid_states (Batt.mk 45 15 355 1 1 1 0)
    ∧ rule_a (Batt.mk 45 15 355 1 1 1 0)
    ∧ Batt.mk 45 15 355 1 1 1 0 EPS_ALERT ≤ 4
    ∧ output (Check_EPS (Batt.mk 45 15 355 1 1 1 0)).2 = ["\n\n"]
    ∧ output (Check_EPS (Batt.mk 45 15 355 1 1 1 0)).2 ≠ [] := by
  decide

/-- C6 (amended): for every record with valid states that satisfies rule (a)
and whose alert counter is in `0..4`, one Watchdog step emits no report line
and no cooldown notice, its whole output being the separator `"\n\n"` of line
266, and leaves the alert counter, and the whole record, unchanged. -/
theorem C6_quiet_rule (b : Batt) (hv : valid_states b) (ha : rule_a b)
    (hal : b EPS_ALERT ≤ 4) :
    Check_EPS b = (b, [Effect.print "\n\n"])
    ∧ output (Check_EPS b).2 = ["\n\n"]
    ∧ (Check_EPS b).1 EPS_ALERT = b EPS_ALERT := by
  have h := Check_EPS_no_change b [] (handle_states_rule_a b hv ha) (by omega)
  rw [h]
  exact ⟨rfl, rfl, rfl⟩

/-- Witness of C6: only the voltage is in Danger, alert counter 3. -/
theorem C6_quiet_rule_witness :
    Check_EPS (Batt.mk 45 30 355 1 3 1 3)
      = (Batt.mk 45 30 355 1 3 1 3, [Effect.print "\n\n"]) :=
  (C6_quiet_rule (Batt.mk 45 30 355 1 3 1 3) (by decide) (by decide) (by decide)).1

/-- C7: a Watchdog step that starts with valid states and an alert counter `c`
in `0..4` ends with the counter at `c`, `c + 1` or `0`; it is `c + 1` only
under rule (c); it is below `c` only when rule (c) fired and the incremented
counter was exactly 5, and then it is 0; in every other case it is `c`. -/
theorem C7_alert_monotonicity (b : Batt) (hv : valid_states b) (ha : b EPS_ALERT ≤ 4) :
    ((Check_EPS b).1 EPS_ALERT = b EPS_ALERT
        ∨ (Check_EPS b).1 EPS_ALERT = b EPS_ALERT + 1
        ∨ (Check_EPS b).1 EPS_ALERT = 0)
    ∧ ((Check_EPS b).1 EPS_ALERT = b EPS_ALERT + 1 → rule_c b)
    ∧ ((Check_EPS b).1 EPS_ALERT < b EPS_ALERT →
        rule_c b ∧ (handle_states b (tally b)).1 EPS_ALERT = 5
          ∧ (Check_EPS b).1 EPS_ALERT = 0)
    ∧ (¬ ((Check_EPS b).1 EPS_ALERT = b EPS_ALERT + 1)
        → ¬ ((Check_EPS b).1 EPS_ALERT < b EPS_ALERT)
        → (Check_EPS b).1 EPS_ALERT = b EPS_ALERT)
    ∧ (Check_EPS b).1 EPS_ALERT
        = (if rule_c b then (if b EPS_ALERT + 1 = 5 then 0 else b EPS_ALERT + 1)
           else b EPS_ALERT) := by
  have hs := counts_sum b hv
  by_cases hc : rule_c b
  · have hm : (b EPS_ALERT + 1) % 65536 = b EPS_ALERT + 1 := by omega
    have hh : (handle_states b (tally b)).1 EPS_ALERT = b EPS_ALERT + 1 := by
      rw [handle_states_rule_c b hc]
      simp only [Batt.set_same, hm]
    rw [Check_EPS_rule_c b hc ha, hh, if_pos hc]
    by_cases h4 : b EPS_ALERT = 4
    · simp [hc, h4, Batt.set_same]
    · have h5 : ¬ (b EPS_ALERT + 1 = 5) := by omega
      simp [hc, h4, h5, Batt.set_same]
  · have hr : handle_states b (tally b) = (b, warning_lines b)
        ∨ handle_states b (tally b) = (b, []) := by
      by_cases hb : rule_b b
      · exact Or.inl (handle_states_rule_b b hb)
      · right
        apply handle_states_rule_a b hv
        unfold rule_a
        unfold rule_b at hb
        unfold rule_c at hc
        omega
    have he : (Check_EPS b).1 = b := by
      rcases hr with hr | hr
      · rw [Check_EPS_no_change b _ hr (by omega)]
      · rw [Check_EPS_no_change b _ hr (by omega)]
    rw [he, if_neg hc]
    simp

/-- Witness of C7: from alert counter 4 under rule (c) the step ends at 0. -/
theorem C7_alert_monotonicity_witness :
    (Check_EPS (Batt.mk 50 18 355 3 2 1 4)).1 EPS_ALERT = 0 :=
  (C7_alert_monotonicity (Batt.mk 50 18 355 3 2 1 4) (by decide) (by decide)).2.2.2.2.trans
    (by decide)

/-- C8: for every record, whichever branch the rule step took, one Watchdog
iteration emits the cooldown notice, sleeps 10 s between its lock and its
unlock, and ends with the alert counter at 0, if and only if the counter after
the rule step is exactly 5; when it is not 5 the iteration emits no notice,
does not sleep inside the critical section, and leaves the record as the rule
step left it. -/
theorem C8_cooldown_trigger (b : Batt) :
    (Check_EPS_cycle b).2 =
        [Effect.sleep 3, Effect.lock] ++ (handle_states b (tally b)).2
          ++ [Effect.print "\n\n"]
          ++ (if (handle_states b (tally b)).1 EPS_ALERT = 5
              then [cooldown_notice, Effect.sleep 10, Effect.store EPS_ALERT 0] else [])
          ++ [Effect.unlock]
    ∧ (Check_EPS_cycle b).1 =
        (if (handle_states b (tally b)).1 EPS_ALERT = 5
          then (handle_states b (tally b)).1.set EPS_ALERT 0
          else (handle_states b (tally b)).1)
    ∧ ((cooldown_notice ∈ (Check_EPS b).2 ∧ Effect.sleep 10 ∈ (Check_EPS b).2
          ∧ (Check_EPS b).1 EPS_ALERT = 0)
        ↔ (handle_states b (tally b)).1 EPS_ALERT = 5)
    ∧ (cooldown_notice ∈ (Check_EPS b).2 ↔ (handle_states b (tally b)).1 EPS_ALERT = 5)
    ∧ (Effect.sleep 10 ∈ (Check_EPS b).2 ↔ (handle_states b (tally b)).1 EPS_ALERT = 5)
    ∧ ((Check_EPS b).1 = (handle_states b (tally b)).1
        ↔ (handle_states b (tally b)).1 EPS_ALERT ≠ 5) := by
  obtain ⟨hn, hsl⟩ := handle_states_plain b
  have hsep : cooldown_notice ≠ Effect.print "\n\n" := by decide
  by_cases h5 : (handle_states b (tally b)).1 EPS_ALERT = 5
  · have hne : ((handle_states b (tally b)).1.set EPS_ALERT 0)
        ≠ (handle_states b (tally b)).1 := by
      intro h
      have := congrFun h EPS_ALERT
      rw [Batt.set_same, h5] at this
      omega
    simp [Check_EPS_cycle, Check_EPS, respond_alert, h5, cooldown_notice, Batt.set_same, hne]
  · have hn' : Effect.print "Sleeping for 10sec \n\n" ∉ (handle_states b (tally b)).2 := hn
    simp [Check_EPS_cycle, Check_EPS, respond_alert, h5, cooldown_notice, hn', hsl]

/-- C9: starting from alert counter 0, five consecutive Watchdog steps whose
states each satisfy rule (c) (the other cells may change between the steps,
the alert counter is carried over) end with the counter at 1, 2, 3, 4 and 0;
the first four emit no cooldown notice and do not sleep; in the fifth the rule
step leaves the counter at 5, exactly one cooldown notice is emitted, and the
counter is stored back to 0 before the unlock that ends the iteration. -/
theorem C9_cooldown_exactness (b1 b2 b3 b4 b5 : Batt)
    (h0 : b1 EPS_ALERT = 0)
    (c1 : rule_c b1) (c2 : rule_c b2) (c3 : rule_c b3) (c4 : rule_c b4) (c5 : rule_c b5)
    (l2 : b2 EPS_ALERT = (Check_EPS b1).1 EPS_ALERT)
    (l3 : b3 EPS_ALERT = (Check_EPS b2).1 EPS_ALERT)
    (l4 : b4 EPS_ALERT = (Check_EPS b3).1 EPS_ALERT)
    (l5 : b5 EPS_ALERT = (Check_EPS b4).1 EPS_ALERT) :
    (Check_EPS b1).1 EPS_ALERT = 1 ∧ (Check_EPS b2).1 EPS_ALERT = 2
    ∧ (Check_EPS b3).1 EPS_ALERT = 3 ∧ (Check_EPS b4).1 EPS_ALERT = 4
    ∧ cooldown_notice ∉ (Check_EPS b1).2 ∧ cooldown_notice ∉ (Check_EPS b2).2
    ∧ cooldown_notice ∉ (Check_EPS b3).2 ∧ cooldown_notice ∉ (Check_EPS b4).2
    ∧ Effect.sleep 10 ∉ (Check_EPS b1).2 ∧ Effect.sleep 10 ∉ (Check_EPS b2).2
    ∧ Effect.sleep 10 ∉ (Check_EPS b3).2 ∧ Effect.sleep 10 ∉ (Check_EPS b4).2
    ∧ (handle_states b5 (tally b5)).1 EPS_ALERT = 5
    ∧ (Check_EPS b5).2.count cooldown_notice = 1
    ∧ (Check_EPS b5).1 EPS_ALERT = 0
    ∧ (Check_EPS_cycle b5).2 =
        [Effect.sleep 3, Effect.lock] ++ report_lines b5
          ++ [Effect.store EPS_ALERT 5, Effect.print "\n\n", cooldown_notice,
              Effect.sleep 10, Effect.store EPS_ALERT 0, Effect.unlock] := by
  have step : ∀ (b : Batt) (n : Nat), rule_c b → b EPS_ALERT = n → n < 4 →
      (Check_EPS b).1 EPS_ALERT = n + 1 ∧ cooldown_notice ∉ (Check_EPS b).2
        ∧ Effect.sleep 10 ∉ (Check_EPS b).2 := by
    intro b n hc hn hlt
    have h4 : ¬ (b EPS_ALERT = 4) := by omega
    obtain ⟨p1, p2⟩ := report_lines_plain b
    have hq : cooldown_notice ≠ Effect.print "\n\n" := by decide
    rw [Check_EPS_rule_c b hc (by omega), if_neg h4]
    refine ⟨by simp [Batt.set_same, hn], ?_, ?_⟩
    · simp only [List.mem_append, List.mem_cons, List.mem_singleton, not_or]
      exact ⟨p1, by unfold cooldown_notice; simp, hq, by simp⟩
    · simp only [List.mem_append, List.mem_cons, List.mem_singleton, not_or]
      exact ⟨p2, by simp, by simp, by simp⟩
  obtain ⟨r1, n1, s1⟩ := step b1 0 c1 h0 (by omega)
  obtain ⟨r2, n2, s2⟩ := step b2 1 c2 (l2.trans r1) (by omega)
  obtain ⟨r3, n3, s3⟩ := step b3 2 c3 (l3.trans r2) (by omega)
  obtain ⟨r4, n4, s4⟩ := step b4 3 c4 (l4.trans r3) (by omega)
  have a5 : b5 EPS_ALERT = 4 := l5.trans r4
  obtain ⟨p1, _⟩ := report_lines_plain b5
  have hcount : (report_lines b5).count cooldown_notice = 0 := List.count_eq_zero.2 p1
  refine ⟨r1, r2, r3, r4, n1, n2, n3, n4, s1, s2, s3, s4, ?_, ?_, ?_, ?_⟩
  · rw [handle_states_rule_c b5 c5]
    simp [Batt.set_same, a5]
  · rw [Check_EPS_rule_c b5 c5 (by omega), if_pos a5]
    simp only [List.count_append, hcount]
    decide
  · rw [Check_EPS_rule_c b5 c5 (by omega), if_pos a5]
    simp [Batt.set_same]
  · unfold Check_EPS_cycle
    rw [Check_EPS_rule_c b5 c5 (by omega), if_pos a5]
    simp

/-- Witness of C9: five steps on records whose states satisfy rule (c) in
different ways, with the alert counter carried from 0 through 1, 2, 3, 4. -/
theorem C9_cooldown_exactness_witness :
    (Check_EPS (Batt.mk 50 18 355 3 2 1 0)).1 EPS_ALERT = 1
    ∧ (Check_EPS (Batt.mk 45 30 0 1 3 3 4)).1 EPS_ALERT = 0
    ∧ (Check_EPS (Batt.mk 45 30 0 1 3 3 4)).2.count cooldown_notice = 1 :=
  have h := C9_cooldown_exactness (Batt.mk 50 18 355 3 2 1 0) (Batt.mk 50 18 0 3 2 3 1)
    (Batt.mk 42 18 0 2 2 3 2) (Batt.mk 0 0 0 3 3 3 3) (Batt.mk 45 30 0 1 3 3 4)
    (by decide) (by decide) (by decide) (by decide) (by decide) (by decide)
    (by decide) (by decide) (by decide) (by decide)
  ⟨h.1, h.2.2.2.2.2.2.2.2.2.2.2.2.2.2.1, h.2.2.2.2.2.2.2.2.2.2.2.2.2.1⟩

/-- C10: for every record whose three states are each Nominal, Warning or
Danger, exactly one of the rules (a), (b), (c) holds, and the rule step of the
Watchdog takes the matching action: its first branch is taken exactly under
rule (b), its second branch, whose test is `3 - nominal_count >= 2` and
`danger_count >= 1`, exactly under rule (c), and neither branch exactly under
rule (a). -/
theorem C10_rule_dispatch (b : Batt) (hv : valid_states b) :
    ((rule_a b ∧ ¬ rule_b b ∧ ¬ rule_c b) ∨ (¬ rule_a b ∧ rule_b b ∧ ¬ rule_c b)
        ∨ (¬ rule_a b ∧ ¬ rule_b b ∧ rule_c b))
    ∧ (warning_branch (tally b) = true ↔ rule_b b)
    ∧ ((warning_branch (tally b) = false ∧ alert_branch (tally b) = true) ↔ rule_c b)
    ∧ ((warning_branch (tally b) = false ∧ alert_branch (tally b) = false) ↔ rule_a b)
    ∧ alert_branch (tally b)
        = (decide ((3 : Int) - (nominal_count b : Int) ≥ 2)
            && decide ((danger_count b : Int) ≥ 1))
    ∧ handle_states b (tally b) =
        (if rule_b b then (b, warning_lines b)
         else if rule_c b then
           (b.set EPS_ALERT ((b EPS_ALERT + 1) % 65536),
             report_lines b ++ [Effect.store EPS_ALERT ((b EPS_ALERT + 1) % 65536)])
         else (b, [])) := by
  have hs := counts_sum b hv
  have hw := warning_branch_iff b
  have hal := alert_branch_iff b
  have hwf : warning_branch (tally b) = false ↔ ¬ rule_b b := by
    rw [← hw]; simp
  have haf : alert_branch (tally b) = false
      ↔ ¬ (nominal_count b ≤ 1 ∧ danger_count b ≥ 1) := by
    rw [← hal]; simp
  refine ⟨?_, hw, ?_, ?_, ?_, ?_⟩
  · unfold rule_a rule_b rule_c
    omega
  · rw [hwf, hal]
    unfold rule_b rule_c
    omega
  · rw [hwf, haf]
    unfold rule_a rule_b
    omega
  · rw [tally_eq]
    rfl
  · rw [handle_states_eq]
    by_cases hb : rule_b b
    · rw [if_pos hb, if_pos hb]
    · have hiff : (nominal_count b ≤ 1 ∧ danger_count b ≥ 1) ↔ rule_c b := by
        unfold rule_c; omega
      rw [if_neg hb, if_neg hb]
      by_cases hc : rule_c b
      · rw [if_pos hc, if_pos (hiff.2 hc)]
      · rw [if_neg hc, if_neg (fun h => hc (hiff.1 h))]

/-- Witness of C10: with states Danger, Danger, Warning only rule (c) holds
and the second branch is the one taken. -/
theorem C10_rule_dispatch_witness :
    (warning_branch (tally (Batt.mk 0 0 358 3 3 2 1)) = false
        ∧ alert_branch (tally (Batt.mk 0 0 358 3 3 2 1)) = true)
      ↔ rule_c (Batt.mk 0 0 358 3 3 2 1) :=
  (C10_rule_dispatch (Batt.mk 0 0 358 3 3 2 1) (by decide)).2.2.1

/-- C13: end-to-end scenario 1.  For every record whose three raw values are
each within 2 of their safe value (45, 15, 355 in particular) and whose alert
counter is in `0..4`, an Evaluator step followed by a Watchdog step leaves all
three states Nominal; the Watchdog takes neither branch (rule (a), Quiet),
reports no channel, its log being the separator of line 266 alone, and the
alert counter is unchanged. -/
theorem C13_scenario_all_nominal (b : Batt)
    (hc : |(b EPS_CURRENT_VAL : Int) - 45| ≤ 2)
    (hv : |(b EPS_VOLTAGE_VAL : Int) - 15| ≤ 2)
    (ht : |(b EPS_TEMPERATURE_VAL : Int) - 355| ≤ 2)
    (ha : b EPS_ALERT ≤ 4) :
    (Compare_EPS b).1 EPS_CURRENT_STATE = NOMINAL
    ∧ (Compare_EPS b).1 EPS_VOLTAGE_STATE = NOMINAL
    ∧ (Compare_EPS b).1 EPS_TEMPERATURE_STATE = NOMINAL
    ∧ rule_a (Compare_EPS b).1
    ∧ warning_branch (tally (Compare_EPS b).1) = false
    ∧ alert_branch (tally (Compare_EPS b).1) = false
    ∧ Check_EPS (Compare_EPS b).1 = ((Compare_EPS b).1, [Effect.print "\n\n"])
    ∧ (Check_EPS (Compare_EPS b).1).1 EPS_ALERT = b EPS_ALERT := by
  have s0 : (Compare_EPS b).1 EPS_CURRENT_STATE = NOMINAL :=
    (Compare_EPS_state b Reading.Current).trans (band_nominal _ _ hc)
  have s1 : (Compare_EPS b).1 EPS_VOLTAGE_STATE = NOMINAL :=
    (Compare_EPS_state b Reading.Voltage).trans (band_nominal _ _ hv)
  have s2 : (Compare_EPS b).1 EPS_TEMPERATURE_STATE = NOMINAL :=
    (Compare_EPS_state b Reading.Temperature).trans (band_nominal _ _ ht)
  have hal : (Compare_EPS b).1 EPS_ALERT = b EPS_ALERT :=
    Compare_EPS_frame b _ (by decide) (by decide) (by decide)
  have hval : valid_states (Compare_EPS b).1 := by
    simp [valid_states, valid_state, s0, s1, s2]
  have hra : rule_a (Compare_EPS b).1 := by
    simp [rule_a, warning_count, danger_count, state_count, s0, s1, s2, NOMINAL, WARNING,
      DANGER]
  have hd := branches_of_rules (Compare_EPS b).1 hval
  have hq := Check_EPS_no_change _ [] (handle_states_rule_a _ hval hra) (by omega)
  refine ⟨s0, s1, s2, hra, (hd.2 hra).1, (hd.2 hra).2, hq, ?_⟩
  rw [hq]
  exact hal

/-- Witness of C13: raw values 45, 15, 355 on a record whose previous states
were all Danger, alert counter 4. -/
theorem C13_scenario_all_nominal_witness :
    Check_EPS (Compare_EPS (Batt.mk 45 15 355 3 3 3 4)).1
      = ((Compare_EPS (Batt.mk 45 15 355 3 3 3 4)).1, [Effect.print "\n\n"]) :=
  (C13_scenario_all_nominal (Batt.mk 45 15 355 3 3 3 4) (by decide) (by decide) (by decide)
    (by decide)).2.2.2.2.2.2.1

/-- C12: end-to-end scenario 2.  For every record whose raw current is 3 or 4
away from 45, raw voltage 3 or 4 away from 15, raw temperature within 2 of 355
and alert counter in `0..4`, an Evaluator step followed by a Watchdog step
leaves the states (Warning, Warning, Nominal), emits exactly the two report
lines "current is in warning state" and "voltage is in warning state", in this
order, followed by the separator of line 266, and leaves the alert counter
unchanged. -/
theorem C12_scenario_two_warnings (b : Batt)
    (hc1 : 2 < |(b EPS_CURRENT_VAL : Int) - 45|) (hc2 : |(b EPS_CURRENT_VAL : Int) - 45| ≤ 4)
    (hv1 : 2 < |(b EPS_VOLTAGE_VAL : Int) - 15|) (hv2 : |(b EPS_VOLTAGE_VAL : Int) - 15| ≤ 4)
    (ht : |(b EPS_TEMPERATURE_VAL : Int) - 355| ≤ 2)
    (ha : b EPS_ALERT ≤ 4) :
    (Compare_EPS b).1 EPS_CURRENT_STATE = WARNING
    ∧ (Compare_EPS b).1 EPS_VOLTAGE_STATE = WARNING
    ∧ (Compare_EPS b).1 EPS_TEMPERATURE_STATE = NOMINAL
    ∧ rule_b (Compare_EPS b).1
    ∧ Check_EPS (Compare_EPS b).1 =
        ((Compare_EPS b).1,
          [Effect.print "current is in warning state\n",
           Effect.print "voltage is in warning state\n", Effect.print "\n\n"])
    ∧ (Check_EPS (Compare_EPS b).1).1 EPS_ALERT = b EPS_ALERT := by
  have s0 : (Compare_EPS b).1 EPS_CURRENT_STATE = WARNING :=
    (Compare_EPS_state b Reading.Current).trans (band_warning _ _ hc1 hc2)
  have s1 : (Compare_EPS b).1 EPS_VOLTAGE_STATE = WARNING :=
    (Compare_EPS_state b Reading.Voltage).trans (band_warning _ _ hv1 hv2)
  have s2 : (Compare_EPS b).1 EPS_TEMPERATURE_STATE = NOMINAL :=
    (Compare_EPS_state b Reading.Temperature).trans (band_nominal _ _ ht)
  have hal : (Compare_EPS b).1 EPS_ALERT = b EPS_ALERT :=
    Compare_EPS_frame b _ (by decide) (by decide) (by decide)
  have hrb : rule_b (Compare_EPS b).1 := by
    simp [rule_b, warning_count, danger_count, state_count, s0, s1, s2, NOMINAL, WARNING,
      DANGER]
  have hl : warning_lines (Compare_EPS b).1 =
      [Effect.print "current is in warning state\n",
       Effect.print "voltage is in warning state\n"] := by
    simp only [warning_lines, warning_line, s0, s1, s2]
    decide
  have hq := Check_EPS_no_change _ _ (handle_states_rule_b _ hrb) (by omega)
  rw [hl] at hq
  refine ⟨s0, s1, s2, hrb, hq, ?_⟩
  rw [hq]
  exact hal

/-- Witness of C12: raw values 48, 12, 355, alert counter 2. -/
theorem C12_scenario_two_warnings_witness :
    (Check_EPS (Compare_EPS (Batt.mk 48 12 355 0 0 0 2)).1).2 =
      [Effect.print "current is in warning state\n",
       Effect.print "voltage is in warning state\n", Effect.print "\n\n"] :=
  congrArg Prod.snd
    (C12_scenario_two_warnings (Batt.mk 48 12 355 0 0 0 2) (by decide) (by decide)
      (by decide) (by decide) (by decide) (by decide)).2.2.2.2.1

/-- C11: end-to-end scenario 3.  For every record whose raw current is more
than 4 away from 45, raw voltage 3 or 4 away from 15, raw temperature within 2
of 355 and alert counter `c` in `0..3`, an Evaluator step followed by a
Watchdog step leaves the states (Danger, Warning, Nominal), emits exactly the
two report lines "current is in danger state" and "voltage is in warning
state", in this order, stores `c + 1` into the alert counter, emits the
separator of line 266 and no cooldown notice, and ends with the counter at
`c + 1`. -/
theorem C11_scenario_danger_warning (b : Batt)
    (hc : 4 < |(b EPS_CURRENT_VAL : Int) - 45|)
    (hv1 : 2 < |(b EPS_VOLTAGE_VAL : Int) - 15|) (hv2 : |(b EPS_VOLTAGE_VAL : Int) - 15| ≤ 4)
    (ht : |(b EPS_TEMPERATURE_VAL : Int) - 355| ≤ 2)
    (ha : b EPS_ALERT ≤ 3) :
    (Compare_EPS b).1 EPS_CURRENT_STATE = DANGER
    ∧ (Compare_EPS b).1 EPS_VOLTAGE_STATE = WARNING
    ∧ (Compare_EPS b).1 EPS_TEMPERATURE_STATE = NOMINAL
    ∧ rule_c (Compare_EPS b).1
    ∧ (Check_EPS (Compare_EPS b).1).2 =
        [Effect.print "current is in danger state\n",
         Effect.print "voltage is in warning state\n",
         Effect.store EPS_ALERT (b EPS_ALERT + 1), Effect.print "\n\n"]
    ∧ output (Check_EPS (Compare_EPS b).1).2 =
        ["current is in danger state\n", "voltage is in warning state\n", "\n\n"]
    ∧ (Check_EPS (Compare_EPS b).1).1 EPS_ALERT = b EPS_ALERT + 1
    ∧ (Check_EPS (Compare_EPS b).1).1 EPS_CURRENT_STATE = DANGER
    ∧ (Check_EPS (Compare_EPS b).1).1 EPS_VOLTAGE_STATE = WARNING
    ∧ (Check_EPS (Compare_EPS b).1).1 EPS_TEMPERATURE_STATE = NOMINAL := by
  have s0 : (Compare_EPS b).1 EPS_CURRENT_STATE = DANGER :=
    (Compare_EPS_state b Reading.Current).trans (band_danger _ _ hc)
  have s1 : (Compare_EPS b).1 EPS_VOLTAGE_STATE = WARNING :=
    (Compare_EPS_state b Reading.Voltage).trans (band_warning _ _ hv1 hv2)
  have s2 : (Compare_EPS b).1 EPS_TEMPERATURE_STATE = NOMINAL :=
    (Compare_EPS_state b Reading.Temperature).trans (band_nominal _ _ ht)
  have hal : (Compare_EPS b).1 EPS_ALERT = b EPS_ALERT :=
    Compare_EPS_frame b _ (by decide) (by decide) (by decide)
  have hrc : rule_c (Compare_EPS b).1 := by
    simp [rule_c, warning_count, danger_count, state_count, s0, s1, s2, NOMINAL, WARNING,
      DANGER]
  have hl : report_lines (Compare_EPS b).1 =
      [Effect.print "current is in danger state\n",
       Effect.print "voltage is in warning state\n"] := by
    simp only [report_lines, report_line, s0, s1, s2]
    decide
  have h4 : ¬ ((Compare_EPS b).1 EPS_ALERT = 4) := by omega
  have hq := Check_EPS_rule_c _ hrc (by omega : (Compare_EPS b).1 EPS_ALERT ≤ 4)
  rw [if_neg h4, hl, hal] at hq
  refine ⟨s0, s1, s2, hrc, ?_, ?_, ?_, ?_, ?_, ?_⟩
  · rw [hq]; rfl
  · rw [hq]; rfl
  · rw [hq]; simp [Batt.set_same]
  · rw [Check_EPS_frame _ _ (by decide)]; exact s0
  · rw [Check_EPS_frame _ _ (by decide)]; exact s1
  · rw [Check_EPS_frame _ _ (by decide)]; exact s2

/-- Witness of C11: raw values 50, 18, 355, alert counter 3. -/
theorem C11_scenario_danger_warning_witness :
    (Check_EPS (Compare_EPS (Batt.mk 50 18 355 0 0 0 3)).1).1 EPS_ALERT = 4 :=
  (C11_scenario_danger_warning (Batt.mk 50 18 355 0 0 0 3) (by decide) (by decide)
    (by decide) (by decide) (by decide)).2.2.2.2.2.2.1

/-- C16: field ownership.  For every record, an Evaluator step leaves the
three raw values and the alert counter unchanged and stores into state cells
only; a Watchdog step leaves the three raw values and the three state cells
unchanged and stores into the alert counter only; a Sampler step leaves the
alert counter unchanged as well, so only the Watchdog changes it. -/
theorem C16_field_ownership (b : Batt) :
    ((Compare_EPS b).1 EPS_CURRENT_VAL = b EPS_CURRENT_VAL
      ∧ (Compare_EPS b).1 EPS_VOLTAGE_VAL = b EPS_VOLTAGE_VAL
      ∧ (Compare_EPS b).1 EPS_TEMPERATURE_VAL = b EPS_TEMPERATURE_VAL
      ∧ (Compare_EPS b).1 EPS_ALERT = b EPS_ALERT)
    ∧ (∀ i v, Effect.store i v ∈ (Compare_EPS b).2 →
        i = EPS_CURRENT_STATE ∨ i = EPS_VOLTAGE_STATE ∨ i = EPS_TEMPERATURE_STATE)
    ∧ ((Check_EPS b).1 EPS_CURRENT_VAL = b EPS_CURRENT_VAL
      ∧ (Check_EPS b).1 EPS_VOLTAGE_VAL = b EPS_VOLTAGE_VAL
      ∧ (Check_EPS b).1 EPS_TEMPERATURE_VAL = b EPS_TEMPERATURE_VAL
      ∧ (Check_EPS b).1 EPS_CURRENT_STATE = b EPS_CURRENT_STATE
      ∧ (Check_EPS b).1 EPS_VOLTAGE_STATE = b EPS_VOLTAGE_STATE
      ∧ (Check_EPS b).1 EPS_TEMPERATURE_STATE = b EPS_TEMPERATURE_STATE)
    ∧ (∀ i v, Effect.store i v ∈ (Check_EPS b).2 → i = EPS_ALERT)
    ∧ (∀ current voltage temp,
        (Update_EPS b current voltage temp).1 EPS_ALERT = b EPS_ALERT) := by
  refine ⟨⟨?_, ?_, ?_, ?_⟩, ?_, ⟨?_, ?_, ?_, ?_, ?_, ?_⟩, ?_, ?_⟩
  · exact Compare_EPS_frame b _ (by decide) (by decide) (by decide)
  · exact Compare_EPS_frame b _ (by decide) (by decide) (by decide)
  · exact Compare_EPS_frame b _ (by decide) (by decide) (by decide)
  · exact Compare_EPS_frame b _ (by decide) (by decide) (by decide)
  · intro i v h
    simp only [Compare_EPS, List.mem_append] at h
    rcases h with ((h | h) | h) | h
    · simp at h
    · exact Or.inl (update_current_state_stores _ i v h)
    · exact Or.inr (Or.inl (update_voltage_state_stores _ i v h))
    · exact Or.inr (Or.inr (update_temperature_state_stores _ i v h))
  · exact Check_EPS_frame b _ (by decide)
  · exact Check_EPS_frame b _ (by decide)
  · exact Check_EPS_frame b _ (by decide)
  · exact Check_EPS_frame b _ (by decide)
  · exact Check_EPS_frame b _ (by decide)
  · exact Check_EPS_frame b _ (by decide)
  · intro i v h
    simp only [Check_EPS, List.mem_append] at h
    rcases h with (h | h) | h
    · exact handle_states_stores b i v h
    · simp at h
    · exact respond_alert_stores _ i v h
  · intro current voltage temp
    exact Update_EPS_frame b _ _ _ _ (by decide) (by decide) (by decide)

/-- Witness of C16: the one store of an alert step of the Watchdog goes to
the alert counter. -/
theorem C16_field_ownership_witness :
    Effect.store EPS_ALERT 3 ∈ (Check_EPS (Batt.mk 50 18 355 3 2 1 2)).2
    ∧ (Check_EPS (Batt.mk 50 18 355 3 2 1 2)).1 EPS_CURRENT_STATE = 3
    ∧ (Compare_EPS (Batt.mk 50 18 355 3 2 1 2)).1 EPS_ALERT = 2 :=
  ⟨by decide,
    (C16_field_ownership (Batt.mk 50 18 355 3 2 1 2)).2.2.1.2.2.2.1.trans (by decide),
    (C16_field_ownership (Batt.mk 50 18 355 3 2 1 2)).1.2.2.2.trans (by decide)⟩

/-- C19: on a record whose three state cells all hold the initial value 0,
with any raw values and the alert counter in `0..4`, the Watchdog step counts
no nominal, no warning and no danger channel, sets no flag, takes neither the
warning-report nor the alert branch, reports no channel (its log is the
separator of line 266 alone) and leaves the whole record unchanged. -/
theorem C19_watchdog_before_evaluator (b : Batt) (hn : never_evaluated b)
    (ha : b EPS_ALERT ≤ 4) :
    (tally b).nominal_state_count = 0
    ∧ (tally b).warning_state_count = 0
    ∧ (tally b).danger_state_count = 0
    ∧ (tally b).warning_state_flag = [0, 0, 0]
    ∧ (tally b).danger_state_flag = [0, 0, 0]
    ∧ warning_branch (tally b) = false
    ∧ alert_branch (tally b) = false
    ∧ handle_states b (tally b) = (b, [])
    ∧ Check_EPS b = (b, [Effect.print "\n\n"]) := by
  have ht := tally_never_evaluated b hn
  have hh : handle_states b (tally b) = (b, []) := by
    unfold handle_states
    rw [ht]
    rfl
  refine ⟨?_, ?_, ?_, ?_, ?_, ?_, ?_, hh, ?_⟩
  · rw [ht]; rfl
  · rw [ht]; rfl
  · rw [ht]; rfl
  · rw [ht]; rfl
  · rw [ht]; rfl
  · rw [ht]; rfl
  · rw [ht]; rfl
  · exact Check_EPS_no_change b [] hh (by omega)

/-- Witness of C19: the Watchdog runs on a record that was sampled but never
evaluated, alert counter 0. -/
theorem C19_watchdog_before_evaluator_witness :
    Check_EPS (Batt.mk 50 18 355 0 0 0 0)
      = (Batt.mk 50 18 355 0 0 0 0, [Effect.print "\n\n"]) :=
  (C19_watchdog_before_evaluator (Batt.mk 50 18 355 0 0 0 0) (by decide)
    (by decide)).2.2.2.2.2.2.2.2

/-- C15: in every record reached from the zero-initialised battery vector by a
finite interleaving of whole Sampler, Evaluator and Watchdog critical
sections, the alert counter is in `0..4`; inside a Watchdog step started from
such a record the counter is 5 after the rule step only when the second
branch was taken under rule (c), and the cooldown notice is emitted only then,
never on a Quiet or Warning-report cycle. -/
theorem C15_reachable_invariant (ts : List EpsTask) :
    (run EPS_BATT_init ts) EPS_ALERT ≤ 4
    ∧ (∀ t : EpsTask, (step (run EPS_BATT_init ts) t) EPS_ALERT ≤ 4)
    ∧ ((handle_states (run EPS_BATT_init ts) (tally (run EPS_BATT_init ts))).1 EPS_ALERT = 5
        → rule_c (run EPS_BATT_init ts)
          ∧ warning_branch (tally (run EPS_BATT_init ts)) = false
          ∧ alert_branch (tally (run EPS_BATT_init ts)) = true
          ∧ (run EPS_BATT_init ts) EPS_ALERT = 4)
    ∧ (cooldown_notice ∈ (Check_EPS (run EPS_BATT_init ts)).2
        → rule_c (run EPS_BATT_init ts) ∧ ¬ rule_a (run EPS_BATT_init ts)
          ∧ ¬ rule_b (run EPS_BATT_init ts)) := by
  obtain ⟨ha, hs⟩ := run_invariant ts
  have hstep : ∀ t : EpsTask, (step (run EPS_BATT_init ts) t) EPS_ALERT ≤ 4 := by
    intro t
    have h := (run_invariant (ts ++ [t])).1
    simpa [run] using h
  have key : (handle_states (run EPS_BATT_init ts) (tally (run EPS_BATT_init ts))).1
        EPS_ALERT = 5
      → rule_c (run EPS_BATT_init ts)
        ∧ warning_branch (tally (run EPS_BATT_init ts)) = false
        ∧ alert_branch (tally (run EPS_BATT_init ts)) = true
        ∧ (run EPS_BATT_init ts) EPS_ALERT = 4 := by
    intro h5
    rw [handle_states_eq] at h5
    split_ifs at h5 with hb hc
    · simp only at h5; omega
    · have hrc := (alert_branch_iff_rule_c _ hs).1 hc
      obtain ⟨w1, w2⟩ := rule_c_branches _ hrc
      refine ⟨hrc, w1, w2, ?_⟩
      simp only [Batt.set_same] at h5
      omega
    · simp only at h5; omega
  refine ⟨ha, hstep, key, ?_⟩
  intro hn
  have h5 := (cooldown_notice_iff (run EPS_BATT_init ts)).1 hn
  obtain ⟨hrc, _, _, _⟩ := key h5
  refine ⟨hrc, ?_, ?_⟩
  · unfold rule_a; unfold rule_c at hrc; omega
  · unfold rule_b; unfold rule_c at hrc; omega

/-- Witness of C15: after one Sampler step, one Evaluator step and four
Watchdog steps on raw values 50, 18, 355 the counter is 4; the next Watchdog
step emits the cooldown notice, and rule (c) holds there. -/
theorem C15_reachable_invariant_witness :
    run EPS_BATT_init [EpsTask.sampler 50 18 355, EpsTask.evaluator, EpsTask.watchdog,
        EpsTask.watchdog, EpsTask.watchdog, EpsTask.watchdog] EPS_ALERT = 4
    ∧ cooldown_notice ∈ (Check_EPS (run EPS_BATT_init [EpsTask.sampler 50 18 355,
        EpsTask.evaluator, EpsTask.watchdog, EpsTask.watchdog, EpsTask.watchdog,
        EpsTask.watchdog])).2
    ∧ rule_c (run EPS_BATT_init [EpsTask.sampler 50 18 355, EpsTask.evaluator,
        EpsTask.watchdog, EpsTask.watchdog, EpsTask.watchdog, EpsTask.watchdog]) :=
  ⟨by decide, by decide,
    ((C15_reachable_invariant [EpsTask.sampler 50 18 355, EpsTask.evaluator,
      EpsTask.watchdog, EpsTask.watchdog, EpsTask.watchdog, EpsTask.watchdog]).2.2.2
        (by decide)).1⟩

/-- Outside the records the program can hold: were the state cells 0, 0 and
Danger, the second branch would be taken with a single non-nominal code among
them, since line 231 tests `3 - nominal_state_count`.  The state cells of a
reachable record are all 0 or all valid (`run_invariant`). -/
theorem alert_branch_on_mixed_states :
    warning_count (Batt.mk 45 15 400 0 0 3 0) + danger_count (Batt.mk 45 15 400 0 0 3 0) = 1
    ∧ alert_branch (tally (Batt.mk 45 15 400 0 0 3 0)) = true
    ∧ ∀ ts : List EpsTask, run EPS_BATT_init ts ≠ Batt.mk 45 15 400 0 0 3 0 := by
  refine ⟨by decide, by decide, ?_⟩
  intro ts h
  have hs := (run_invariant ts).2
  rw [h] at hs
  exact absurd hs (by decide)

/-- C18 (as stated, refuted): in the Watchdog step that starts with alert
counter 4 under rule (c) the cooldown is triggered, and the log ends with the
notice, the 10 s sleep, the reset and the unlock in this order: when the sleep
begins the alert counter holds 5, not 0. -/
theorem C18_counterexample :
    cooldown_notice ∈ (Check_EPS (Batt.mk 50 18 355 3 2 1 4)).2
    ∧ (Check_EPS_cycle (Batt.mk 50 18 355 3 2 1 4)).2 =
        [Effect.sleep 3, Effect.lock, Effect.print "current is in danger state\n",
         Effect.print "voltage is in warning state\n", Effect.store EPS_ALERT 5,
         Effect.print "\n\n", cooldown_notice, Effect.sleep 10, Effect.store EPS_ALERT 0,
         Effect.unlock]
    ∧ (record_at_sleep 10 (Batt.mk 50 18 355 3 2 1 4)
          (Check_EPS_cycle (Batt.mk 50 18 355 3 2 1 4)).2).map (fun r => r EPS_ALERT)
        = some 5
    ∧ (record_at_sleep 10 (Batt.mk 50 18 355 3 2 1 4)
          (Check_EPS_cycle (Batt.mk 50 18 355 3 2 1 4)).2).map (fun r => r EPS_ALERT)
        ≠ some 0 := by
  decide

/-- C18 (amended): in every Watchdog iteration that triggers the cooldown the
effects occur in the order: cooldown notice emitted, cooldown sleep of 10 s,
alert counter reset to 0, lock release; the alert counter still holds 5 when
the sleep begins and holds 0 when the lock is released. -/
theorem C18_cooldown_order (b : Batt) (h5 : (handle_states b (tally b)).1 EPS_ALERT = 5) :
    (Check_EPS_cycle b).2 =
        [Effect.sleep 3, Effect.lock] ++ (handle_states b (tally b)).2
          ++ [Effect.print "\n\n", cooldown_notice, Effect.sleep 10,
              Effect.store EPS_ALERT 0, Effect.unlock]
    ∧ record_at_sleep 10 b (Check_EPS_cycle b).2 = some (handle_states b (tally b)).1
    ∧ (record_at_sleep 10 b (Check_EPS_cycle b).2).map (fun r => r EPS_ALERT) = some 5
    ∧ replay b (Check_EPS_cycle b).2 = (Check_EPS_cycle b).1
    ∧ (Check_EPS_cycle b).1 EPS_ALERT = 0 := by
  obtain ⟨_, hsl⟩ := handle_states_plain b
  have hlog : (Check_EPS_cycle b).2 =
      [Effect.sleep 3, Effect.lock] ++ (handle_states b (tally b)).2
        ++ [Effect.print "\n\n", cooldown_notice, Effect.sleep 10,
            Effect.store EPS_ALERT 0, Effect.unlock] := by
    simp [Check_EPS_cycle, Check_EPS, respond_alert, h5, cooldown_notice]
  have hfin : (Check_EPS_cycle b).1 = (handle_states b (tally b)).1.set EPS_ALERT 0 := by
    simp [Check_EPS_cycle, Check_EPS, respond_alert, h5]
  have hpre : Effect.sleep 10 ∉ [Effect.sleep 3, Effect.lock] ++ (handle_states b (tally b)).2 := by
    simp only [List.mem_append, not_or]
    exact ⟨by decide, hsl⟩
  have hrep : replay b ([Effect.sleep 3, Effect.lock] ++ (handle_states b (tally b)).2)
      = (handle_states b (tally b)).1 := by
    rw [replay_append]
    have : replay b [Effect.sleep 3, Effect.lock] = b := by simp [replay, apply_effect]
    rw [this, replay_handle_states]
  have hat : record_at_sleep 10 b (Check_EPS_cycle b).2 = some (handle_states b (tally b)).1 := by
    rw [hlog, record_at_sleep_append 10 _ _ b hpre, hrep]
    simp [record_at_sleep, apply_effect, cooldown_notice]
  refine ⟨hlog, hat, ?_, ?_, ?_⟩
  · rw [hat]; simp [h5]
  · rw [hlog, replay_append, hrep, hfin]
    simp [replay, apply_effect, cooldown_notice]
  · rw [hfin, Batt.set_same]

/-- Witness of C18: alert counter 4, states Danger, Warning, Nominal. -/
theorem C18_cooldown_order_witness :
    (record_at_sleep 10 (Batt.mk 50 18 355 3 2 1 4)
        (Check_EPS_cycle (Batt.mk 50 18 355 3 2 1 4)).2).map (fun r => r EPS_ALERT) = some 5
    ∧ (Check_EPS_cycle (Batt.mk 50 18 355 3 2 1 4)).1 EPS_ALERT = 0 :=
  ⟨(C18_cooldown_order (Batt.mk 50 18 355 3 2 1 4) (by decide)).2.2.1,
    (C18_cooldown_order (Batt.mk 50 18 355 3 2 1 4) (by decide)).2.2.2.2⟩

end EPS
